import Mathlib

/-!
# Libnet/server_core.c : the three listeners

A shallow embedding of `start_listener`, `start_domainsocket_listener` and
`start_listener_addrinfo`.  The operating system and the C library are the
environment: every call whose result the code inspects (`socket`, `bind`,
`listen`, `calloc`, `accept`, `pthread_create`, ...) takes its result from an
explicit input, and every call the code makes from the accept loop on is
recorded, in program order, in a trace of events.

The `while (1)` loop is run over a finite script of per-iteration inputs.  When
the script ends while the loop has not left, the outcome is `pending`: the
listener is still accepting.

The global `debug_mode` is read in every pass; no code of this file writes it,
and a run takes one value of it.  The handler `process_meth` is opaque: an
inline call of it is one event and returns.
-/

namespace ServerCore

/-! ## Constants -/

/-- Constants declared in headers outside the excerpt (pbs_error.h, server
limits, log.h).  They are parameters of the model. -/
structure Consts where
  PBSE_NONE : Int
  PBSE_SOCKET_FAULT : Int
  PBSE_SOCKET_LISTEN : Int
  PBSE_THREADATTR : Int
  PBS_LOCAL_CONNECTION : Int
  PBS_EVENTCLASS_TRQAUTHD : Int
  deriving DecidableEq, Repr

/-- server_core.c line 19. -/
def NUM_ACCEPT_RETRIES : Int := 5

/-- The C truth value the code compares debug_mode with. -/
def TRUE : Int := 1

/-- Linux errno.h: too many open files in the process. -/
def EMFILE : Int := 24

/-- Linux errno.h: too many open files in the system. -/
def ENFILE : Int := 23

/-- Linux errno.h: interrupted system call. -/
def EINTR : Int := 4

/-- Linux errno.h: bad file descriptor (an errno outside the retry class). -/
def EBADF : Int := 9

/-- The value inet_addr returns for an unparsable address (netinet/in.h). -/
def INADDR_NONE : Nat := 4294967295

/-- Conversion of an int to uint16_t followed by the byte swap of a
little-endian host.  The result is zero exactly when the low 16 bits are. -/
def htons (x : Int) : Nat :=
  let v := (x % 65536).toNat
  (v % 256) * 256 + v / 256

/-- Byte swap of a 32-bit value on a little-endian host. -/
def ntohl (x : Nat) : Nat :=
  let v := x % 4294967296
  (v % 256) * 16777216 + (v / 256 % 256) * 65536 + (v / 65536 % 256) * 256 + v / 16777216

/-! ## Events -/

/-- The texts the listeners print or log; numbers formatted into a text are
arguments. -/
inductive Msg where
  | started_ip_port (port : Int)
  | started_unix_socket
  | temporary_pause
  | error_in_accept (errno : Int)
  | error_allocating_on_accept
  | error_allocating_stopping
  | passed_retry_tolerance
  | error_in_accept_stopping (errno : Int)
  | ignoring_local_request (fd : Int)
  | total_requests (n : Int)
  | socket_close_requested
  | socket_failed
  | bind_failed
  | chmod_failed
  | listen_failed
  deriving DecidableEq, Repr

/-- One call made by a listener.  `null_store` is the store of the accept
result through a NULL `new_conn_port`; `wild_access` is the access through the
`adr_svr` pointer that a failed getaddrinfo left unset. -/
inductive Event where
  | calloc (ok : Bool)
  | accept (sock : Int) (ret : Int)
  | null_store
  | wild_access
  | sleep (secs : Nat)
  | printf (m : Msg)
  | close (fd : Int)
  | free
  | process_meth (fd : Int)
  | pthread_create (fd : Int) (ok : Bool)
  | setsockopt (fd : Int)
  | log_record (m : Msg)
  | add_conn (fd : Int) (addr : Nat) (port : Nat)
  | enqueue_threadpool_request (fd : Int)
  | pthread_attr_destroy
  | log_event (m : Option Msg)
  | freeaddrinfo
  | unlink
  deriving DecidableEq, Repr

/-! ## Environment inputs -/

/-- What the environment answers during one pass through the loop body. -/
structure Iter where
  /-- whether calloc returned a non-NULL handle -/
  callocOk : Bool
  /-- return value of accept: -1 or the new descriptor -/
  acceptRet : Int
  /-- errno after accept -/
  acceptErrno : Int
  /-- sin_addr.s_addr that accept stored in adr_client -/
  sin_addr : Nat
  /-- sin_port that accept stored in adr_client -/
  sin_port : Nat
  /-- whether pthread_create returned 0 -/
  threadOk : Bool
  deriving DecidableEq, Repr

/-- Results of the provisioning calls of start_listener. -/
structure TcpEnv where
  inet_addr : Nat
  socket_get_tcp : Int
  bind : Int
  setsockopt : Int
  listen : Int
  pthread_attr_init : Int
  pthread_attr_setdetachstate : Int
  objclass : Int
  deriving DecidableEq, Repr

/-- Results of the provisioning calls of start_domainsocket_listener. -/
structure UnixEnv where
  socket : Int
  bind : Int
  chmod : Int
  listen : Int
  pthread_attr_init : Int
  pthread_attr_setdetachstate : Int
  objclass : Int
  deriving DecidableEq, Repr

/-- Results of the provisioning calls of start_listener_addrinfo.
After a failed getaddrinfo the pointer `adr_svr` is unset and the code still
uses it (memcpy of the port, read of ai_family, get_listen_socket,
freeaddrinfo).  C leaves the effect open; `adr_svr_readable` says whether the
process survives these uses (true) or is stopped at the first of them
(false). -/
structure AddrinfoEnv where
  getaddrinfo : Int
  adr_svr_readable : Bool
  get_listen_socket : Int
  bind : Int
  listen : Int
  pthread_attr_init : Int
  pthread_attr_setdetachstate : Int
  deriving DecidableEq, Repr

/-! ## Loop state -/

/-- Where the loop stands: still looping, left through `break`, or stopped by
an invalid memory access. -/
inductive Status where
  | running
  | exited
  | fault
  deriving DecidableEq, Repr

/-- The local variables the loop reads and writes, with the trace so far.
`held` is `new_conn_port != NULL`. -/
structure LoopState where
  trace : List Event
  total_cntr : Int
  retry_tolerance : Int
  exit_loop : Bool
  err_msg : Option Msg
  held : Bool
  status : Status
  deriving DecidableEq, Repr

/-- How a call of a listener ends on a finite script. -/
inductive Outcome where
  | returned (rc : Int)
  | pending
  | fault
  deriving DecidableEq, Repr

/-- The trace of a call and how it ended. -/
structure Result where
  trace : List Event
  outcome : Outcome
  deriving DecidableEq, Repr

/-! ## The loop bodies -/

/-- The `if (debug_mode == TRUE)` block that ends every loop body: print the
running total every 1000 passes and count the pass.  (`total_cntr` is a C int;
its overflow after 2^31 passes is not modelled.) -/
def telemetry (debug_mode : Int) (st : LoopState) : LoopState :=
  if debug_mode = TRUE then
    { st with
      trace := st.trace ++
        (if st.total_cntr % 1000 = 0 then [Event.printf (Msg.total_requests st.total_cntr)] else []),
      total_cntr := st.total_cntr + 1 }
  else st

/-- One pass of the loop of start_listener (lines 95-134).  The calloc result
is not tested: with a NULL handle accept is still called and its result is
stored through the NULL pointer. -/
def start_listener_iter (debug_mode listen_socket : Int) (st : LoopState) (it : Iter) :
    LoopState :=
  let t0 := st.trace ++ [Event.calloc it.callocOk, Event.accept listen_socket it.acceptRet]
  if it.callocOk = false then
    { st with trace := t0 ++ [Event.null_store], held := false, status := Status.fault }
  else if it.acceptRet = -1 then
    if it.acceptErrno = EMFILE then
      telemetry debug_mode
        { st with
          trace := t0 ++ [Event.sleep 1, Event.printf Msg.temporary_pause, Event.close (-1),
            Event.free],
          held := false }
    else
      { st with
        trace := t0 ++ [Event.printf (Msg.error_in_accept it.acceptErrno)],
        held := true, status := Status.exited }
  else
    telemetry debug_mode
      { st with
        trace := t0 ++
          [if debug_mode = TRUE then Event.process_meth it.acceptRet
           else Event.pthread_create it.acceptRet it.threadOk],
        held := true }

/-- One pass of the loop of start_domainsocket_listener (lines 222-265). -/
def start_domainsocket_listener_iter (debug_mode listen_socket : Int) (st : LoopState)
    (it : Iter) : LoopState :=
  if it.callocOk = false then
    { st with
      trace := st.trace ++ [Event.calloc false, Event.printf Msg.error_allocating_on_accept],
      held := false, status := Status.exited }
  else
    let t0 := st.trace ++ [Event.calloc true, Event.accept listen_socket it.acceptRet]
    if it.acceptRet = -1 then
      if it.acceptErrno = EMFILE then
        telemetry debug_mode
          { st with
            trace := t0 ++ [Event.sleep 1, Event.printf Msg.temporary_pause, Event.close (-1),
              Event.free],
            held := false }
      else
        { st with
          trace := t0 ++ [Event.printf (Msg.error_in_accept it.acceptErrno)],
          held := true, status := Status.exited }
    else
      telemetry debug_mode
        { st with
          trace := t0 ++
            [if debug_mode = TRUE then Event.process_meth it.acceptRet
             else Event.pthread_create it.acceptRet it.threadOk],
          held := true }

/-- The `switch (errno)` of start_listener_addrinfo (lines 361-383). -/
def accept_failed_switch (errno : Int) (st : LoopState) : LoopState :=
  if errno = EMFILE ∨ errno = ENFILE ∨ errno = EINTR then
    if st.retry_tolerance ≤ 0 then
      { st with
        retry_tolerance := st.retry_tolerance - 1,
        exit_loop := true,
        err_msg := some Msg.passed_retry_tolerance }
    else
      { st with
        retry_tolerance := st.retry_tolerance - 1,
        trace := st.trace ++ [Event.sleep 1] }
  else
    { st with
      err_msg := some (Msg.error_in_accept_stopping errno),
      exit_loop := true }

/-- The dispatch of an accepted connection in start_listener_addrinfo
(lines 399-425). -/
def addrinfo_dispatch (c : Consts) (debug_mode : Int) (it : Iter) : List Event :=
  if debug_mode = TRUE then
    [Event.process_meth it.acceptRet]
  else if it.acceptRet = c.PBS_LOCAL_CONNECTION then
    [Event.log_record (Msg.ignoring_local_request it.acceptRet)]
  else
    [Event.add_conn it.acceptRet (ntohl it.sin_addr) (htons (Int.ofNat it.sin_port)),
     Event.enqueue_threadpool_request it.acceptRet]

/-- One pass of the loop of start_listener_addrinfo (lines 349-436). -/
def start_listener_addrinfo_iter (c : Consts) (debug_mode listen_socket : Int)
    (st : LoopState) (it : Iter) : LoopState :=
  if it.callocOk = false then
    { st with
      trace := st.trace ++ [Event.calloc false],
      err_msg := some Msg.error_allocating_stopping,
      held := false, status := Status.exited }
  else
    let st0 : LoopState :=
      { st with
        trace := st.trace ++ [Event.calloc true, Event.accept listen_socket it.acceptRet],
        held := true }
    if it.acceptRet = -1 then
      let st1 := accept_failed_switch it.acceptErrno st0
      if st1.exit_loop = true then
        { st1 with status := Status.exited }
      else
        telemetry debug_mode
          { st1 with trace := st1.trace ++ [Event.close (-1), Event.free], held := false }
    else
      telemetry debug_mode
        { st0 with
          retry_tolerance := NUM_ACCEPT_RETRIES,
          trace := st0.trace ++ [Event.setsockopt it.acceptRet] ++ addrinfo_dispatch c debug_mode it }

/-- The `while (1)` loop on a finite script: the body runs once per scripted
pass for as long as the loop has not left. -/
def runLoop (body : LoopState → Iter → LoopState) : LoopState → List Iter → LoopState
  | st, [] => st
  | st, it :: rest =>
    if st.status = Status.running then runLoop body (body st it) rest else st

/-- The state in which a loop is entered. -/
def loopEntry (started : List Event) : LoopState :=
  { trace := started, total_cntr := 0, retry_tolerance := NUM_ACCEPT_RETRIES,
    exit_loop := false, err_msg := none, held := false, status := Status.running }

/-- The code after the loop: free the handle if one is held, destroy the thread
attributes, log, close the listening socket, return rc. -/
def afterLoop (listen_socket rc : Int) (reason : LoopState → Option Msg) (st : LoopState) :
    Result :=
  match st.status with
  | Status.running => { trace := st.trace, outcome := Outcome.pending }
  | Status.fault => { trace := st.trace, outcome := Outcome.fault }
  | Status.exited =>
    { trace := st.trace ++ (if st.held then [Event.free] else []) ++
        [Event.pthread_attr_destroy, Event.log_event (reason st), Event.close listen_socket],
      outcome := Outcome.returned rc }

/-! ## The three listeners -/

/-- The events of start_listener between the provisioning and the loop: the
"started" log entry, written when the event class is the one of trqauthd. -/
def tcp_started (c : Consts) (env : TcpEnv) (server_port : Int) : List Event :=
  if env.objclass = c.PBS_EVENTCLASS_TRQAUTHD then
    [Event.log_event (some (Msg.started_ip_port server_port))] else []

/-- The events of start_domainsocket_listener before the loop: the unlink of
the socket path and the "started" log entry. -/
def unix_started (c : Consts) (env : UnixEnv) : List Event :=
  Event.unlink ::
    (if env.objclass = c.PBS_EVENTCLASS_TRQAUTHD then
      [Event.log_event (some Msg.started_unix_socket)] else [])

/-- Model of start_listener (lines 26-147).  `listen_socket` starts as 0 and
`rc` as PBSE_NONE; the branch for a zero network-order port is empty. -/
def start_listener (c : Consts) (env : TcpEnv) (debug_mode server_port : Int)
    (its : List Iter) : Result :=
  if htons server_port = 0 then
    { trace := [Event.close 0], outcome := Outcome.returned c.PBSE_NONE }
  else if env.inet_addr = INADDR_NONE then
    { trace := [Event.close 0], outcome := Outcome.returned c.PBSE_SOCKET_FAULT }
  else if env.socket_get_tcp < 0 then
    { trace := [Event.close env.socket_get_tcp], outcome := Outcome.returned c.PBSE_SOCKET_FAULT }
  else if env.bind = -1 then
    { trace := [Event.close env.socket_get_tcp], outcome := Outcome.returned c.PBSE_SOCKET_FAULT }
  else if env.setsockopt = -1 then
    { trace := [Event.close env.socket_get_tcp], outcome := Outcome.returned c.PBSE_SOCKET_FAULT }
  else if env.listen = -1 then
    { trace := [Event.close env.socket_get_tcp], outcome := Outcome.returned c.PBSE_SOCKET_LISTEN }
  else if env.pthread_attr_init ≠ 0 then
    { trace := [Event.close env.socket_get_tcp], outcome := Outcome.returned c.PBSE_THREADATTR }
  else if env.pthread_attr_setdetachstate ≠ 0 then
    { trace := [Event.pthread_attr_destroy, Event.close env.socket_get_tcp],
      outcome := Outcome.returned env.pthread_attr_setdetachstate }
  else
    afterLoop env.socket_get_tcp env.pthread_attr_setdetachstate
      (fun _ => some Msg.socket_close_requested)
      (runLoop (start_listener_iter debug_mode env.socket_get_tcp)
        (loopEntry (tcp_started c env server_port))
        its)

/-- Model of start_domainsocket_listener (lines 153-278). -/
def start_domainsocket_listener (c : Consts) (env : UnixEnv) (debug_mode : Int)
    (its : List Iter) : Result :=
  if env.socket < 0 then
    { trace := [Event.unlink, Event.log_event (some Msg.socket_failed), Event.close env.socket],
      outcome := Outcome.returned c.PBSE_SOCKET_FAULT }
  else if env.bind < 0 then
    { trace := [Event.unlink, Event.log_event (some Msg.bind_failed), Event.close env.socket],
      outcome := Outcome.returned c.PBSE_SOCKET_FAULT }
  else if env.chmod < 0 then
    { trace := [Event.unlink, Event.log_event (some Msg.chmod_failed), Event.close env.socket],
      outcome := Outcome.returned c.PBSE_SOCKET_FAULT }
  else if env.listen < 0 then
    { trace := [Event.unlink, Event.log_event (some Msg.listen_failed), Event.close env.socket],
      outcome := Outcome.returned c.PBSE_SOCKET_LISTEN }
  else if env.pthread_attr_init ≠ 0 then
    { trace := [Event.unlink, Event.close env.socket],
      outcome := Outcome.returned c.PBSE_THREADATTR }
  else if env.pthread_attr_setdetachstate ≠ 0 then
    { trace := [Event.unlink, Event.pthread_attr_destroy, Event.close env.socket],
      outcome := Outcome.returned env.pthread_attr_setdetachstate }
  else
    afterLoop env.socket env.pthread_attr_setdetachstate
      (fun _ => some Msg.socket_close_requested)
      (runLoop (start_domainsocket_listener_iter debug_mode env.socket)
        (loopEntry (unix_started c env))
        its)

/-- The value of `listen_socket` when start_listener reaches its final close:
the initial 0 when no socket was asked for, else what socket_get_tcp returned. -/
def tcp_listen_socket (env : TcpEnv) (server_port : Int) : Int :=
  if htons server_port = 0 ∨ env.inet_addr = INADDR_NONE then 0 else env.socket_get_tcp

/-- The events of lines 305-316 of start_listener_addrinfo: nothing when
getaddrinfo succeeded, the access through the unset `adr_svr` otherwise.  The
assignment `rc = PBSE_SOCKET_FAULT` of line 307 is followed by no return and
every later branch assigns rc again. -/
def addrinfo_prologue (env : AddrinfoEnv) : List Event :=
  if env.getaddrinfo = 0 then [] else [Event.wild_access]

/-- Model of start_listener_addrinfo (lines 283-452). -/
def start_listener_addrinfo (c : Consts) (env : AddrinfoEnv) (debug_mode : Int)
    (its : List Iter) : Result :=
  if env.getaddrinfo ≠ 0 ∧ env.adr_svr_readable = false then
    { trace := addrinfo_prologue env, outcome := Outcome.fault }
  else if env.get_listen_socket < 0 then
    { trace := addrinfo_prologue env ++ [Event.close env.get_listen_socket],
      outcome := Outcome.returned c.PBSE_SOCKET_FAULT }
  else if env.bind = -1 then
    { trace := addrinfo_prologue env ++ [Event.close env.get_listen_socket],
      outcome := Outcome.returned c.PBSE_SOCKET_FAULT }
  else if env.listen = -1 then
    { trace := addrinfo_prologue env ++ [Event.close env.get_listen_socket],
      outcome := Outcome.returned c.PBSE_SOCKET_LISTEN }
  else if env.pthread_attr_init ≠ 0 then
    { trace := addrinfo_prologue env ++ [Event.close env.get_listen_socket],
      outcome := Outcome.returned c.PBSE_THREADATTR }
  else if env.pthread_attr_setdetachstate ≠ 0 then
    { trace := addrinfo_prologue env ++
        [Event.pthread_attr_destroy, Event.close env.get_listen_socket],
      outcome := Outcome.returned env.pthread_attr_setdetachstate }
  else
    afterLoop env.get_listen_socket env.pthread_attr_setdetachstate
      (fun st => st.err_msg)
      (runLoop (start_listener_addrinfo_iter c debug_mode env.get_listen_socket)
        (loopEntry (addrinfo_prologue env ++ [Event.freeaddrinfo]))
        its)

/-- The provisioning of start_listener succeeds: none of the guards before the
loop (lines 49-84) fires. -/
def TcpEnv.entersLoop (env : TcpEnv) (server_port : Int) : Prop :=
  ¬ htons server_port = 0 ∧ ¬ env.inet_addr = INADDR_NONE ∧ ¬ env.socket_get_tcp < 0
  ∧ ¬ env.bind = -1 ∧ ¬ env.setsockopt = -1 ∧ ¬ env.listen = -1
  ∧ env.pthread_attr_init = 0 ∧ env.pthread_attr_setdetachstate = 0

/-- The provisioning of start_domainsocket_listener succeeds: none of the
guards before the loop (lines 178-211) fires. -/
def UnixEnv.entersLoop (env : UnixEnv) : Prop :=
  ¬ env.socket < 0 ∧ ¬ env.bind < 0 ∧ ¬ env.chmod < 0 ∧ ¬ env.listen < 0
  ∧ env.pthread_attr_init = 0 ∧ env.pthread_attr_setdetachstate = 0

/-- The provisioning of start_listener_addrinfo reaches the loop: the access
through `adr_svr` does not stop the process and none of the guards of lines
318-342 fires. -/
def AddrinfoEnv.entersLoop (env : AddrinfoEnv) : Prop :=
  ¬ (env.getaddrinfo ≠ 0 ∧ env.adr_svr_readable = false) ∧ ¬ env.get_listen_socket < 0
  ∧ ¬ env.bind = -1 ∧ ¬ env.listen = -1
  ∧ env.pthread_attr_init = 0 ∧ env.pthread_attr_setdetachstate = 0

/-- The errno values the switch of start_listener_addrinfo retries on. -/
def transientErrno (errno : Int) : Prop :=
  errno = EMFILE ∨ errno = ENFILE ∨ errno = EINTR

/-- A pass whose allocation succeeds and whose accept fails with an errno of
the retry class of start_listener_addrinfo. -/
def Iter.transientFailure (it : Iter) : Prop :=
  it.callocOk = true ∧ it.acceptRet = -1 ∧ transientErrno it.acceptErrno

/-- A pass whose allocation succeeds and whose accept returns a descriptor. -/
def Iter.success (it : Iter) : Prop :=
  it.callocOk = true ∧ it.acceptRet ≠ -1

instance (errno : Int) : Decidable (transientErrno errno) := by
  unfold transientErrno; infer_instance

instance (it : Iter) : Decidable it.transientFailure := by
  unfold Iter.transientFailure; infer_instance

instance (it : Iter) : Decidable it.success := by
  unfold Iter.success; infer_instance

instance (env : TcpEnv) (p : Int) : Decidable (env.entersLoop p) := by
  unfold TcpEnv.entersLoop; infer_instance

instance (env : UnixEnv) : Decidable env.entersLoop := by
  unfold UnixEnv.entersLoop; infer_instance

instance (env : AddrinfoEnv) : Decidable env.entersLoop := by
  unfold AddrinfoEnv.entersLoop; infer_instance

/-! ## Reading a trace -/

/-- Whether an event is a call of accept. -/
def Event.isAccept : Event → Bool
  | Event.accept _ _ => true
  | _ => false

/-- Whether an event is a call of sleep for one second. -/
def Event.isSleep : Event → Bool
  | Event.sleep 1 => true
  | _ => false

/-- The descriptor an event obtained from a successful accept. -/
def Event.acceptedFd : Event → Option Int
  | Event.accept _ ret => if ret = -1 then none else some ret
  | _ => none

/-- The descriptor an event hands to the handler, inline or through
pthread_create. -/
def Event.dispatchedFd : Event → Option Int
  | Event.process_meth fd => some fd
  | Event.pthread_create fd _ => some fd
  | _ => none

/-- The descriptor the handler runs on because of an event: an inline call
runs it, a created thread runs it, a failed pthread_create runs nothing. -/
def Event.handledFd : Event → Option Int
  | Event.process_meth fd => some fd
  | Event.pthread_create fd ok => if ok then some fd else none
  | _ => none

/-- The descriptor an event registers through add_conn. -/
def Event.registeredFd : Event → Option Int
  | Event.add_conn fd _ _ => some fd
  | _ => none

/-- The descriptor an event puts on the worker pool. -/
def Event.enqueuedFd : Event → Option Int
  | Event.enqueue_threadpool_request fd => some fd
  | _ => none

/-- Number of accept calls in a trace. -/
def acceptCalls (tr : List Event) : Nat := tr.countP Event.isAccept

/-- Number of one-second sleeps in a trace. -/
def sleepCalls (tr : List Event) : Nat := tr.countP Event.isSleep

/-- Descriptors returned by the successful accept calls, in order. -/
def accepted (tr : List Event) : List Int := tr.filterMap Event.acceptedFd

/-- Descriptors handed to process_meth or to pthread_create, in order. -/
def dispatched (tr : List Event) : List Int := tr.filterMap Event.dispatchedFd

/-- Descriptors on which the handler is invoked, in order of dispatch. -/
def handled (tr : List Event) : List Int := tr.filterMap Event.handledFd

/-- Descriptors passed to add_conn, in order. -/
def registered (tr : List Event) : List Int := tr.filterMap Event.registeredFd

/-- Descriptors passed to enqueue_threadpool_request, in order. -/
def enqueued (tr : List Event) : List Int := tr.filterMap Event.enqueuedFd

/-- A reading of events that ignores the bookkeeping calls: everything except
accept and the calls that hand a connection on. -/
def LoopQuiet (f : Event → Option Int) : Prop :=
  (∀ b, f (Event.calloc b) = none) ∧ (∀ n, f (Event.sleep n) = none)
  ∧ (∀ m, f (Event.printf m) = none) ∧ (∀ fd, f (Event.close fd) = none)
  ∧ f Event.free = none ∧ (∀ fd, f (Event.setsockopt fd) = none)
  ∧ f Event.null_store = none ∧ f Event.wild_access = none
  ∧ (∀ m, f (Event.log_event m) = none) ∧ (∀ m, f (Event.log_record m) = none)
  ∧ f Event.pthread_attr_destroy = none ∧ f Event.freeaddrinfo = none
  ∧ f Event.unlink = none

/-- Whether a peer address, as accept stores it (network byte order), lies in
the loopback net 127.0.0.0/8. -/
def isLoopback (sin_addr : Nat) : Bool := ntohl sin_addr / 16777216 == 127

/-! ## Synchronous dispatch -/

/-- One step of the check that dispatch is synchronous.  The state is the
descriptor of the accepted connection whose handler has not run yet, if any.
A successful accept opens such a connection; the inline call of the handler on
that descriptor closes it.  A further accept while one is open, a handler call
with none open or on another descriptor, and any hand-off to a thread or to
the worker pool break the check (`none`).  Other events leave the state. -/
def syncStep (waiting : Option Int) (e : Event) : Option (Option Int) :=
  match e, waiting with
  | Event.accept _ ret, none => if ret = -1 then some none else some (some ret)
  | Event.accept _ _, some _ => none
  | Event.process_meth fd, some w => if fd = w then some none else none
  | Event.process_meth _, none => none
  | Event.pthread_create _ _, _ => none
  | Event.enqueue_threadpool_request _, _ => none
  | _, w => some w

/-- The check of `syncStep` along a trace: `none` when some step breaks it,
else the state after the last event. -/
def syncFrom : Option Int → List Event → Option (Option Int)
  | w, [] => some w
  | w, e :: rest =>
    match syncStep w e with
    | none => none
    | some w' => syncFrom w' rest

/-- The accept calls that returned a descriptor and the inline handler calls
of a trace, in order. -/
def syncView (tr : List Event) : List Event :=
  tr.filter (fun e =>
    match e with
    | Event.accept _ ret => decide (ret ≠ -1)
    | Event.process_meth _ => true
    | _ => false)

/-! ## Sample inputs -/

/-- A sample assignment of the header constants: PBSE_NONE is 0, the other
values are distinct stand-ins. -/
def sampleConsts : Consts :=
  { PBSE_NONE := 0, PBSE_SOCKET_FAULT := 15096, PBSE_SOCKET_LISTEN := 15097,
    PBSE_THREADATTR := 15098, PBS_LOCAL_CONNECTION := 65535, PBS_EVENTCLASS_TRQAUTHD := 11 }

/-- An environment in which every provisioning call of start_listener
succeeds; the listening socket is descriptor 3. -/
def tcpOk : TcpEnv :=
  { inet_addr := 16777343, socket_get_tcp := 3, bind := 0, setsockopt := 0, listen := 0,
    pthread_attr_init := 0, pthread_attr_setdetachstate := 0, objclass := 0 }

/-- An environment in which every provisioning call of
start_domainsocket_listener succeeds. -/
def unixOk : UnixEnv :=
  { socket := 3, bind := 0, chmod := 0, listen := 0, pthread_attr_init := 0,
    pthread_attr_setdetachstate := 0, objclass := 0 }

/-- An environment in which every provisioning call of start_listener_addrinfo
succeeds. -/
def addrinfoOk : AddrinfoEnv :=
  { getaddrinfo := 0, adr_svr_readable := true, get_listen_socket := 3, bind := 0,
    listen := 0, pthread_attr_init := 0, pthread_attr_setdetachstate := 0 }

/-- An environment in which getaddrinfo fails (EAI_NONAME, -2), the memory
behind the unset `adr_svr` is accessible, and every later provisioning call
succeeds. -/
def addrinfoUnresolved : AddrinfoEnv :=
  { getaddrinfo := -2, adr_svr_readable := true, get_listen_socket := 3, bind := 0,
    listen := 0, pthread_attr_init := 0, pthread_attr_setdetachstate := 0 }

/-- As `addrinfoUnresolved`, with the memory behind the unset `adr_svr` not
accessible. -/
def addrinfoUnresolvedWild : AddrinfoEnv :=
  { getaddrinfo := -2, adr_svr_readable := false, get_listen_socket := 3, bind := 0,
    listen := 0, pthread_attr_init := 0, pthread_attr_setdetachstate := 0 }

/-- A pass in which accept fails with the given errno. -/
def acceptFails (errno : Int) : Iter :=
  { callocOk := true, acceptRet := -1, acceptErrno := errno, sin_addr := 0, sin_port := 0,
    threadOk := true }

/-- A pass in which accept returns descriptor `fd` for a peer at 127.0.0.1
(s_addr 0x0100007F on a little-endian host). -/
def acceptsLoopback (fd : Int) : Iter :=
  { callocOk := true, acceptRet := fd, acceptErrno := 0, sin_addr := 16777343,
    sin_port := 4660, threadOk := true }

/-- A pass in which accept returns descriptor `fd` and the later
pthread_create fails. -/
def acceptsThreadFails (fd : Int) : Iter :=
  { callocOk := true, acceptRet := fd, acceptErrno := 0, sin_addr := 16777343,
    sin_port := 4660, threadOk := false }

/-- A pass in which calloc returns NULL; accept, if it is reached, returns
descriptor `fd`. -/
def callocFails (fd : Int) : Iter :=
  { callocOk := false, acceptRet := fd, acceptErrno := 0, sin_addr := 16777343,
    sin_port := 4660, threadOk := true }

end ServerCore

/-!
# Libutils/u_groups.c : getgrnam_ext

The group database is the environment: `getgrnam_r` and `getgrgid_r` answer
with their return value and with what they leave in `*result`.
-/

namespace Groups

/-- The fields of `struct group` the lookups fill in. -/
structure Group where
  gr_name : List Char
  gr_gid : Int
  deriving DecidableEq, Repr

/-- Answer of getgrnam_r or getgrgid_r: the return value and `*result`, where
`none` is the NULL pointer (no matching entry, or an error) and `some g` is the
entry stored in the caller's struct.  A lookup that finds no entry returns 0
with `*result` NULL. -/
structure Lookup where
  rc : Int
  result : Option Group
  deriving DecidableEq, Repr

/-- What the environment answers to the calls of getgrnam_ext.  The lookups
take the name or the group id and the buffer size. -/
structure Env where
  sysconf : Int
  mallocOk : Bool
  callocOk : Bool
  getgrnam_r : List Char → Int → Lookup
  getgrgid_r : Int → Int → Lookup

/-- The texts getgrnam_ext logs. -/
inductive Log where
  | failed_to_allocate_memory
  | could_not_allocate_structure
  | getgrnam_r_failed (rc : Int)
  deriving DecidableEq, Repr

/-- The pointer getgrnam_ext returns: NULL, or `grp`, the struct it allocated,
together with the entry the last lookup stored in it (`none` when that lookup
left `*result` NULL, so the struct holds no group entry). -/
inductive Ret where
  | null
  | grp (entry : Option Group)
  deriving DecidableEq, Repr

/-- The returned pointer and the log entries written. -/
structure Out where
  ret : Ret
  log : List Log
  deriving DecidableEq, Repr

/-- Lines 32-34: the buffer size, 8196 when sysconf gives -1. -/
def bufsize (env : Env) : Int :=
  if env.sysconf = -1 then 8196 else env.sysconf

/-- The test `isdigit(grp_name[0])`; the first byte of an empty string is the
terminating NUL, which is no digit. -/
def isdigit_first (grp_name : List Char) : Bool :=
  match grp_name with
  | [] => false
  | ch :: _ => ch.isDigit

/-- The value atoi gives for a string that starts with a digit: the number
written by its leading decimal digits.  (The overflow of a number beyond the
range of int is not modelled.) -/
def atoi (s : List Char) : Int :=
  Int.ofNat ((s.takeWhile Char.isDigit).foldl (fun acc ch => acc * 10 + (ch.toNat - 48)) 0)

/-- Model of getgrnam_ext (lines 18-67); `none` is a NULL `grp_name`.  The
pointer `result` is written by the lookups and never read. -/
def getgrnam_ext (env : Env) (grp_name : Option (List Char)) : Out :=
  match grp_name with
  | none => { ret := Ret.null, log := [] }
  | some name =>
    if env.mallocOk = false then
      { ret := Ret.null, log := [Log.failed_to_allocate_memory] }
    else if env.callocOk = false then
      { ret := Ret.null, log := [Log.could_not_allocate_structure] }
    else if (env.getgrnam_r name (bufsize env)).rc ≠ 0 then
      if isdigit_first name = true then
        if (env.getgrgid_r (atoi name) (bufsize env)).rc = 0 then
          { ret := Ret.grp (env.getgrgid_r (atoi name) (bufsize env)).result, log := [] }
        else
          { ret := Ret.null,
            log := [Log.getgrnam_r_failed (env.getgrgid_r (atoi name) (bufsize env)).rc] }
      else
        { ret := Ret.null,
          log := [Log.getgrnam_r_failed (env.getgrnam_r name (bufsize env)).rc] }
    else
      { ret := Ret.grp (env.getgrnam_r name (bufsize env)).result, log := [] }

/-- The group `users` with id 100. -/
def usersGroup : Group :=
  { gr_name := ['u', 's', 'e', 'r', 's'], gr_gid := 100 }

/-- A group database that holds the one group `users` (id 100).  A lookup that
matches nothing returns 0 and leaves `*result` NULL. -/
def usersOnly : Env :=
  { sysconf := 1024, mallocOk := true, callocOk := true,
    getgrnam_r := fun name _ =>
      if name = ['u', 's', 'e', 'r', 's'] then { rc := 0, result := some usersGroup }
      else { rc := 0, result := none },
    getgrgid_r := fun gid _ =>
      if gid = 100 then { rc := 0, result := some usersGroup }
      else { rc := 0, result := none } }

/-- The same database behind a getgrnam_r that reports an unknown name with
ENOENT (2) instead of 0. -/
def usersOnlyEnoent : Env :=
  { sysconf := 1024, mallocOk := true, callocOk := true,
    getgrnam_r := fun name _ =>
      if name = ['u', 's', 'e', 'r', 's'] then { rc := 0, result := some usersGroup }
      else { rc := 2, result := none },
    getgrgid_r := fun gid _ =>
      if gid = 100 then { rc := 0, result := some usersGroup }
      else { rc := 0, result := none } }

end Groups

/-!
# cmds/pbs_track.c : parse_commandline_opts

`getopt` is the environment: a command line is the list of what the
successive getopt calls return before EOF (the option character and `optarg`),
with the final values of `optind` and `argc`.  C strings are the lists of
their characters before the terminating NUL.
-/

namespace PbsTrack

/-- One return of getopt before EOF: the option character (`?` for an unknown
option or a missing argument) and `optarg`. -/
structure GetoptRet where
  ArgIndex : Char
  optarg : List Char
  deriving DecidableEq, Repr

/-- The variables parse_commandline_opts writes: the three the caller passes
and the local error count. -/
structure ParseState where
  tmpAdopteeID : List Char
  tmpJobID : List Char
  DoBackground : Int
  NumErrs : Nat
  deriving DecidableEq, Repr

/-- The call `snprintf(dest, size, "%s", src)` on strings: with size 0 nothing
is written, else the first size - 1 characters of `src` and a NUL. -/
def snprintf_s (size : Nat) (dest src : List Char) : List Char :=
  if size = 0 then dest else src.take (size - 1)

/-- One pass of the getopt loop (lines 41-82).  `ptr_size` is
`sizeof(tmpJobID)`: tmpJobID is the parameter of type `char *`, so this is the
size of a pointer (8 on LP64, 4 on ILP32). -/
def parse_step (ptr_size : Nat) (st : ParseState) (g : GetoptRet) : ParseState :=
  if g.ArgIndex = 'a' then
    if st.DoBackground = 1 then { st with NumErrs := st.NumErrs + 1 }
    else { st with tmpAdopteeID := g.optarg }
  else if g.ArgIndex = 'b' then
    if st.tmpAdopteeID.length ≠ 0 then { st with NumErrs := st.NumErrs + 1 }
    else { st with DoBackground := 1 }
  else if g.ArgIndex = 'j' then
    { st with tmpJobID := snprintf_s ptr_size st.tmpJobID g.optarg }
  else
    { st with NumErrs := st.NumErrs + 1 }

/-- What parse_commandline_opts returns and leaves in its output parameters. -/
structure ParseOut where
  ret : Int
  st : ParseState
  deriving DecidableEq, Repr

/-- Model of parse_commandline_opts (lines 26-104).  `PBSE_NONE` is declared
outside the excerpt and is a parameter. -/
def parse_commandline_opts (ptr_size : Nat) (PBSE_NONE argc optind : Int)
    (opts : List GetoptRet) (tmpAdopteeID tmpJobID : List Char) (DoBackground : Int) :
    ParseOut :=
  let st := opts.foldl (parse_step ptr_size)
    { tmpAdopteeID := tmpAdopteeID, tmpJobID := tmpJobID, DoBackground := DoBackground,
      NumErrs := 0 }
  if st.NumErrs > 0
      ∨ (optind ≥ argc ∧ st.tmpAdopteeID.length = 0)
      ∨ (st.tmpJobID = [] ∧ st.tmpAdopteeID.length = 0)
      ∨ (st.tmpAdopteeID.length > 0 ∧ st.tmpJobID = []) then
    { ret := 2, st := st }
  else
    { ret := PBSE_NONE, st := st }

/-- The call of main (lines 300-313): tmpJobID is a buffer of PBS_MAXCLTJOBID
bytes holding the empty string, tmpAdopteeID is empty, DoBackground is 0. -/
def main_parse (ptr_size : Nat) (PBSE_NONE argc optind : Int) (opts : List GetoptRet) :
    ParseOut :=
  parse_commandline_opts ptr_size PBSE_NONE argc optind opts [] [] 0

/-- What getopt returns for `-j X`. -/
def optJ (X : List Char) : GetoptRet := { ArgIndex := 'j', optarg := X }

/-- What getopt returns for `-b`. -/
def optB : GetoptRet := { ArgIndex := 'b', optarg := [] }

/-- The job id `1234567.host`, twelve characters. -/
def jobid12 : List Char := ['1', '2', '3', '4', '5', '6', '7', '.', 'h', 'o', 's', 't']

end PbsTrack

namespace ServerCore

/-! ## General facts about the loop -/

theorem runLoop_not_running (body : LoopState → Iter → LoopState) (st : LoopState)
    (its : List Iter) (h : st.status ≠ Status.running) : runLoop body st its = st := by
  cases its with
  | nil => rfl
  | cons it rest => simp [runLoop, h]

theorem runLoop_append (body : LoopState → Iter → LoopState) (st : LoopState)
    (xs ys : List Iter) :
    runLoop body st (xs ++ ys) = runLoop body (runLoop body st xs) ys := by
  induction xs generalizing st with
  | nil => rfl
  | cons x xs ih =>
    by_cases h : st.status = Status.running
    · simp [runLoop, h, ih]
    · simp [runLoop, h, runLoop_not_running body st ys h]

theorem runLoop_invariant (body : LoopState → Iter → LoopState) (I : LoopState → Prop)
    (P : Iter → Prop) (hbody : ∀ st it, P it → I st → I (body st it))
    (st : LoopState) (its : List Iter) (hP : ∀ it ∈ its, P it) (h0 : I st) :
    I (runLoop body st its) := by
  induction its generalizing st with
  | nil => exact h0
  | cons it rest ih =>
    by_cases h : st.status = Status.running
    · simp only [runLoop, h, if_true]
      exact ih (body st it) (fun x hx => hP x (List.mem_cons_of_mem _ hx))
        (hbody st it (hP it (List.mem_cons_self _ _)) h0)
    · simp only [runLoop, h, if_false]
      exact h0

theorem telemetry_status (d : Int) (st : LoopState) : (telemetry d st).status = st.status := by
  unfold telemetry; split <;> rfl

theorem telemetry_retry (d : Int) (st : LoopState) :
    (telemetry d st).retry_tolerance = st.retry_tolerance := by
  unfold telemetry; split <;> rfl

theorem telemetry_exit_loop (d : Int) (st : LoopState) :
    (telemetry d st).exit_loop = st.exit_loop := by
  unfold telemetry; split <;> rfl

theorem telemetry_acceptCalls (d : Int) (st : LoopState) :
    acceptCalls (telemetry d st).trace = acceptCalls st.trace := by
  unfold telemetry acceptCalls; split <;> [split; skip] <;> simp [Event.isAccept]

theorem telemetry_sleepCalls (d : Int) (st : LoopState) :
    sleepCalls (telemetry d st).trace = sleepCalls st.trace := by
  unfold telemetry sleepCalls; split <;> [split; skip] <;> simp [Event.isSleep]

/-! ## C1 : transient accept failures in the TCP and Unix-domain loops -/

theorem start_listener_iter_emfile (d ls : Int) (st : LoopState) (it : Iter)
    (h : it.callocOk = true ∧ it.acceptRet = -1 ∧ it.acceptErrno = EMFILE) :
    (start_listener_iter d ls st it).status = st.status
    ∧ acceptCalls (start_listener_iter d ls st it).trace = acceptCalls st.trace + 1
    ∧ sleepCalls (start_listener_iter d ls st it).trace = sleepCalls st.trace + 1 := by
  obtain ⟨h1, h2, h3⟩ := h
  simp [start_listener_iter, h1, h2, h3, telemetry_status, telemetry_acceptCalls,
    telemetry_sleepCalls]
  simp [acceptCalls, sleepCalls, Event.isAccept, Event.isSleep, List.countP_append]

theorem start_domainsocket_listener_iter_emfile (d ls : Int) (st : LoopState) (it : Iter)
    (h : it.callocOk = true ∧ it.acceptRet = -1 ∧ it.acceptErrno = EMFILE) :
    (start_domainsocket_listener_iter d ls st it).status = st.status
    ∧ acceptCalls (start_domainsocket_listener_iter d ls st it).trace = acceptCalls st.trace + 1
    ∧ sleepCalls (start_domainsocket_listener_iter d ls st it).trace
        = sleepCalls st.trace + 1 := by
  obtain ⟨h1, h2, h3⟩ := h
  simp [start_domainsocket_listener_iter, h1, h2, h3, telemetry_status, telemetry_acceptCalls,
    telemetry_sleepCalls]
  simp [acceptCalls, sleepCalls, Event.isAccept, Event.isSleep, List.countP_append]

/-- A loop whose body keeps the status and adds one accept and one sleep on
every pass of a script is still running after the script, with as many more
accepts and sleeps as the script has passes. -/
theorem runLoop_retries (body : LoopState → Iter → LoopState) (P : Iter → Prop)
    (hbody : ∀ st it, P it → (body st it).status = st.status
      ∧ acceptCalls (body st it).trace = acceptCalls st.trace + 1
      ∧ sleepCalls (body st it).trace = sleepCalls st.trace + 1)
    (st : LoopState) (fails : List Iter) (h_run : st.status = Status.running)
    (h_fail : ∀ it ∈ fails, P it) :
    (runLoop body st fails).status = Status.running
    ∧ acceptCalls (runLoop body st fails).trace = acceptCalls st.trace + fails.length
    ∧ sleepCalls (runLoop body st fails).trace = sleepCalls st.trace + fails.length := by
  induction fails generalizing st with
  | nil => simp [runLoop, h_run]
  | cons it rest ih =>
    have hit := hbody st it (h_fail it (List.mem_cons_self _ _))
    have hrest := ih (body st it) (hit.1.trans h_run)
      (fun x hx => h_fail x (List.mem_cons_of_mem _ hx))
    simp only [runLoop, h_run, if_true, List.length_cons]
    refine ⟨hrest.1, ?_, ?_⟩
    · rw [hrest.2.1, hit.2.1]; omega
    · rw [hrest.2.2, hit.2.2]; omega

theorem start_listener_iter_exits_iff (d ls : Int) (st : LoopState) (it : Iter)
    (h_run : st.status = Status.running) (h_alloc : it.callocOk = true) :
    (start_listener_iter d ls st it).status = Status.exited
      ↔ (it.acceptRet = -1 ∧ it.acceptErrno ≠ EMFILE) := by
  unfold start_listener_iter
  by_cases h1 : it.acceptRet = -1 <;> by_cases h2 : it.acceptErrno = EMFILE <;>
    simp [h_alloc, h1, h2, telemetry_status, h_run]

theorem start_domainsocket_listener_iter_exits_iff (d ls : Int) (st : LoopState) (it : Iter)
    (h_run : st.status = Status.running) (h_alloc : it.callocOk = true) :
    (start_domainsocket_listener_iter d ls st it).status = Status.exited
      ↔ (it.acceptRet = -1 ∧ it.acceptErrno ≠ EMFILE) := by
  unfold start_domainsocket_listener_iter
  by_cases h1 : it.acceptRet = -1 <;> by_cases h2 : it.acceptErrno = EMFILE <;>
    simp [h_alloc, h1, h2, telemetry_status, h_run]

/-- C1, as stated, fails: one accept failure with ENFILE ends the loop of
start_listener, and one with EINTR ends the loop of start_domainsocket_listener;
the function returns after a single accept call although a further connection
is waiting. -/
theorem C1_counterexample :
    (start_listener sampleConsts tcpOk 0 15001
        [acceptFails ENFILE, acceptsLoopback 7]).outcome = Outcome.returned 0
    ∧ acceptCalls (start_listener sampleConsts tcpOk 0 15001
        [acceptFails ENFILE, acceptsLoopback 7]).trace = 1
    ∧ (start_domainsocket_listener sampleConsts unixOk 0
        [acceptFails EINTR, acceptsLoopback 7]).outcome = Outcome.returned 0
    ∧ acceptCalls (start_domainsocket_listener sampleConsts unixOk 0
        [acceptFails EINTR, acceptsLoopback 7]).trace = 1 := by
  decide

/-- C1 (amended): in the loops of start_listener and start_domainsocket_listener
the retry class is EMFILE alone.  From any running state, after any finite run
of passes in which the connection handle is allocated and accept fails with
EMFILE, the loop is still running and has issued one accept and one 1-second
sleep per pass; and a pass in which the handle is allocated leaves the loop
exactly when its accept fails with an errno other than EMFILE (ENFILE and EINTR
included).  The allocation of the handle is part of every hypothesis: in
start_domainsocket_listener accept is called only with a handle, so there it
says no more than that accept was called; in start_listener it sets aside the
passes in which calloc returns NULL. -/
theorem C1_emfile_retried_other_errno_exits (debug_mode listen_socket : Int) (st : LoopState)
    (fails : List Iter) (h_run : st.status = Status.running)
    (h_fail : ∀ it ∈ fails, it.callocOk = true ∧ it.acceptRet = -1 ∧ it.acceptErrno = EMFILE) :
    ((runLoop (start_listener_iter debug_mode listen_socket) st fails).status = Status.running
      ∧ acceptCalls (runLoop (start_listener_iter debug_mode listen_socket) st fails).trace
          = acceptCalls st.trace + fails.length
      ∧ sleepCalls (runLoop (start_listener_iter debug_mode listen_socket) st fails).trace
          = sleepCalls st.trace + fails.length)
    ∧ ((runLoop (start_domainsocket_listener_iter debug_mode listen_socket) st fails).status
          = Status.running
      ∧ acceptCalls
          (runLoop (start_domainsocket_listener_iter debug_mode listen_socket) st fails).trace
          = acceptCalls st.trace + fails.length
      ∧ sleepCalls
          (runLoop (start_domainsocket_listener_iter debug_mode listen_socket) st fails).trace
          = sleepCalls st.trace + fails.length)
    ∧ (∀ it : Iter, it.callocOk = true →
        (((start_listener_iter debug_mode listen_socket st it).status = Status.exited
            ↔ (it.acceptRet = -1 ∧ it.acceptErrno ≠ EMFILE))
        ∧ ((start_domainsocket_listener_iter debug_mode listen_socket st it).status
            = Status.exited ↔ (it.acceptRet = -1 ∧ it.acceptErrno ≠ EMFILE)))) := by
  refine ⟨?_, ?_, ?_⟩
  · exact runLoop_retries _ _ (start_listener_iter_emfile debug_mode listen_socket) st fails
      h_run h_fail
  · exact runLoop_retries _ _
      (start_domainsocket_listener_iter_emfile debug_mode listen_socket) st fails h_run h_fail
  · intro it h_alloc
    exact ⟨start_listener_iter_exits_iff _ _ st it h_run h_alloc,
      start_domainsocket_listener_iter_exits_iff _ _ st it h_run h_alloc⟩

/-- C1 witness: three EMFILE failures at the entry of the loop on socket 3. -/
theorem C1_emfile_retried_other_errno_exits_witness :
    (runLoop (start_listener_iter 0 3) (loopEntry [])
        [acceptFails EMFILE, acceptFails EMFILE, acceptFails EMFILE]).status = Status.running
    ∧ acceptCalls (runLoop (start_domainsocket_listener_iter 0 3) (loopEntry [])
        [acceptFails EMFILE, acceptFails EMFILE, acceptFails EMFILE]).trace = 0 + 3 :=
  have h := C1_emfile_retried_other_errno_exits 0 3 (loopEntry [])
    [acceptFails EMFILE, acceptFails EMFILE, acceptFails EMFILE] rfl (by decide)
  ⟨h.1.1, h.2.1.2.1⟩

/-! ## The three functions once provisioning has succeeded -/

theorem start_listener_enters (c : Consts) (env : TcpEnv) (d port : Int) (its : List Iter)
    (h : env.entersLoop port) :
    start_listener c env d port its =
      afterLoop env.socket_get_tcp 0 (fun _ => some Msg.socket_close_requested)
        (runLoop (start_listener_iter d env.socket_get_tcp)
          (loopEntry (tcp_started c env port))
          its) := by
  obtain ⟨h1, h2, h3, h4, h5, h6, h7, h8⟩ := h
  simp only [start_listener, h1, h2, h3, h4, h5, h6, h7, h8, if_false, ne_eq, not_true_eq_false]

theorem start_domainsocket_listener_enters (c : Consts) (env : UnixEnv) (d : Int)
    (its : List Iter) (h : env.entersLoop) :
    start_domainsocket_listener c env d its =
      afterLoop env.socket 0 (fun _ => some Msg.socket_close_requested)
        (runLoop (start_domainsocket_listener_iter d env.socket)
          (loopEntry (unix_started c env))
          its) := by
  obtain ⟨h1, h2, h3, h4, h5, h6⟩ := h
  simp only [start_domainsocket_listener, h1, h2, h3, h4, h5, h6, if_false, ne_eq,
    not_true_eq_false]

theorem start_listener_addrinfo_enters (c : Consts) (env : AddrinfoEnv) (d : Int)
    (its : List Iter) (h : env.entersLoop) :
    start_listener_addrinfo c env d its =
      afterLoop env.get_listen_socket 0 (fun st => st.err_msg)
        (runLoop (start_listener_addrinfo_iter c d env.get_listen_socket)
          (loopEntry (addrinfo_prologue env ++ [Event.freeaddrinfo]))
          its) := by
  obtain ⟨h1, h2, h3, h4, h5, h6⟩ := h
  simp only [start_listener_addrinfo, h1, h2, h3, h4, h5, h6, if_false, ne_eq,
    not_true_eq_false]

theorem addrinfo_iter_tolerated (c : Consts) (d ls : Int) (st : LoopState) (it : Iter)
    (h : it.transientFailure) (hx : st.exit_loop = false) (hr : 0 < st.retry_tolerance) :
    (start_listener_addrinfo_iter c d ls st it).status = st.status
    ∧ (start_listener_addrinfo_iter c d ls st it).exit_loop = false
    ∧ (start_listener_addrinfo_iter c d ls st it).retry_tolerance = st.retry_tolerance - 1
    ∧ acceptCalls (start_listener_addrinfo_iter c d ls st it).trace = acceptCalls st.trace + 1
    ∧ sleepCalls (start_listener_addrinfo_iter c d ls st it).trace
        = sleepCalls st.trace + 1 := by
  obtain ⟨h1, h2, h3⟩ := h
  have h3' : it.acceptErrno = EMFILE ∨ it.acceptErrno = ENFILE ∨ it.acceptErrno = EINTR := h3
  have hr' : ¬ st.retry_tolerance ≤ 0 := not_le.mpr hr
  simp [start_listener_addrinfo_iter, accept_failed_switch, h1, h2, h3', hx, hr',
    telemetry_status, telemetry_exit_loop, telemetry_retry, telemetry_acceptCalls,
    telemetry_sleepCalls]
  simp [acceptCalls, sleepCalls, Event.isAccept, Event.isSleep, List.countP_append]

theorem addrinfo_iter_exhausted (c : Consts) (d ls : Int) (st : LoopState) (it : Iter)
    (h : it.transientFailure) (hr : st.retry_tolerance ≤ 0) :
    start_listener_addrinfo_iter c d ls st it =
      { st with
        trace := st.trace ++ [Event.calloc true, Event.accept ls (-1)],
        held := true,
        retry_tolerance := st.retry_tolerance - 1,
        exit_loop := true,
        err_msg := some Msg.passed_retry_tolerance,
        status := Status.exited } := by
  obtain ⟨h1, h2, h3⟩ := h
  have h3' : it.acceptErrno = EMFILE ∨ it.acceptErrno = ENFILE ∨ it.acceptErrno = EINTR := h3
  simp [start_listener_addrinfo_iter, accept_failed_switch, h1, h2, h3', hr]

theorem addrinfo_iter_success (c : Consts) (d ls : Int) (st : LoopState) (it : Iter)
    (h : it.success) :
    (start_listener_addrinfo_iter c d ls st it).status = st.status
    ∧ (start_listener_addrinfo_iter c d ls st it).exit_loop = st.exit_loop
    ∧ (start_listener_addrinfo_iter c d ls st it).retry_tolerance = NUM_ACCEPT_RETRIES
    ∧ acceptCalls (start_listener_addrinfo_iter c d ls st it).trace
        = acceptCalls st.trace + 1 := by
  obtain ⟨h1, h2⟩ := h
  simp [start_listener_addrinfo_iter, h1, h2, telemetry_status, telemetry_exit_loop,
    telemetry_retry, telemetry_acceptCalls]
  unfold addrinfo_dispatch acceptCalls
  split <;> [skip; split] <;> simp [Event.isAccept, List.countP_append]

/-- A run of transient failures no longer than the remaining tolerance leaves
the loop running and lowers the tolerance by its length. -/
theorem addrinfo_run_tolerated (c : Consts) (d ls : Int) (st : LoopState) (fails : List Iter)
    (h_run : st.status = Status.running) (hx : st.exit_loop = false)
    (h_fail : ∀ it ∈ fails, it.transientFailure)
    (h_len : (fails.length : Int) ≤ st.retry_tolerance) :
    (runLoop (start_listener_addrinfo_iter c d ls) st fails).status = Status.running
    ∧ (runLoop (start_listener_addrinfo_iter c d ls) st fails).exit_loop = false
    ∧ (runLoop (start_listener_addrinfo_iter c d ls) st fails).retry_tolerance
        = st.retry_tolerance - fails.length
    ∧ acceptCalls (runLoop (start_listener_addrinfo_iter c d ls) st fails).trace
        = acceptCalls st.trace + fails.length
    ∧ sleepCalls (runLoop (start_listener_addrinfo_iter c d ls) st fails).trace
        = sleepCalls st.trace + fails.length := by
  induction fails generalizing st with
  | nil => simp [runLoop, h_run, hx]
  | cons it rest ih =>
    simp only [List.length_cons, Nat.cast_add, Nat.cast_one] at h_len
    have hpos : 0 < st.retry_tolerance := by
      have : (0 : Int) ≤ (rest.length : Int) := Int.ofNat_nonneg _
      omega
    have hit := addrinfo_iter_tolerated c d ls st it (h_fail it (List.mem_cons_self _ _)) hx hpos
    have hrest := ih (start_listener_addrinfo_iter c d ls st it) (hit.1.trans h_run) hit.2.1
      (fun x hx => h_fail x (List.mem_cons_of_mem _ hx)) (by rw [hit.2.2.1]; omega)
    simp only [runLoop, h_run, if_true, List.length_cons, Nat.cast_add, Nat.cast_one]
    refine ⟨hrest.1, hrest.2.1, ?_, ?_, ?_⟩
    · rw [hrest.2.2.1, hit.2.2.1]; omega
    · rw [hrest.2.2.2.1, hit.2.2.2.1]; omega
    · rw [hrest.2.2.2.2, hit.2.2.2.2]; omega

theorem addrinfo_iter_exit_loop_clear (c : Consts) (d ls : Int) (st : LoopState) (it : Iter)
    (h : st.status = Status.running → st.exit_loop = false) :
    (start_listener_addrinfo_iter c d ls st it).status = Status.running →
      (start_listener_addrinfo_iter c d ls st it).exit_loop = false := by
  by_cases c1 : it.callocOk = true
  · by_cases c2 : it.acceptRet = -1
    · simp only [start_listener_addrinfo_iter, c1, c2, Bool.true_eq_false, if_false, if_true,
        eq_self_iff_true]
      split
      · simp
      · rename_i hx
        simp only [telemetry_status, telemetry_exit_loop]
        intro _
        simpa using hx
    · simp only [start_listener_addrinfo_iter, c1, c2, Bool.true_eq_false, if_false,
        telemetry_status, telemetry_exit_loop]
      exact h
  · simp [start_listener_addrinfo_iter, c1]

/-- While the loop of start_listener_addrinfo runs, exit_loop is clear: every
state the loop reaches from its entry and continues from has exit_loop = FALSE,
and right after a successful accept retry_tolerance is 5 (see
`addrinfo_iter_success`). -/
theorem addrinfo_running_exit_loop_clear (c : Consts) (d ls : Int) (started : List Event)
    (its : List Iter) :
    (runLoop (start_listener_addrinfo_iter c d ls) (loopEntry started) its).status
        = Status.running →
      (runLoop (start_listener_addrinfo_iter c d ls) (loopEntry started) its).exit_loop
        = false :=
  runLoop_invariant (start_listener_addrinfo_iter c d ls)
    (fun st => st.status = Status.running → st.exit_loop = false) (fun _ => True)
    (fun st it _ h => addrinfo_iter_exit_loop_clear c d ls st it h)
    (loopEntry started) its (fun _ _ => trivial) (fun _ => rfl)

/-- C3: in the loop of start_listener_addrinfo, from any state in which the
loop runs with exit_loop clear and retry_tolerance = 5 (loop entry, or the
state after a successful accept), k < 5 consecutive transient accept failures
leave the loop running: after each of them the loop runs on and has issued one
accept per failure, the counter stands at 5 - k, the next pass issues accept
again, and when that accept succeeds the loop still runs with exit_loop clear
and retry_tolerance back at 5. -/
theorem C3_tolerated_failures_then_reset (c : Consts) (debug_mode listen_socket : Int)
    (st : LoopState) (fails : List Iter) (succ : Iter)
    (h_run : st.status = Status.running) (h_exit : st.exit_loop = false)
    (h_rt : st.retry_tolerance = NUM_ACCEPT_RETRIES)
    (h_len : fails.length < 5) (h_fail : ∀ it ∈ fails, it.transientFailure)
    (h_succ : succ.success) :
    (∀ n ≤ fails.length,
        (runLoop (start_listener_addrinfo_iter c debug_mode listen_socket) st
          (fails.take n)).status = Status.running
        ∧ acceptCalls (runLoop (start_listener_addrinfo_iter c debug_mode listen_socket) st
          (fails.take n)).trace = acceptCalls st.trace + n)
    ∧ (runLoop (start_listener_addrinfo_iter c debug_mode listen_socket) st
        fails).retry_tolerance = 5 - fails.length
    ∧ acceptCalls (runLoop (start_listener_addrinfo_iter c debug_mode listen_socket) st
        (fails ++ [succ])).trace = acceptCalls st.trace + fails.length + 1
    ∧ (runLoop (start_listener_addrinfo_iter c debug_mode listen_socket) st
        (fails ++ [succ])).status = Status.running
    ∧ (runLoop (start_listener_addrinfo_iter c debug_mode listen_socket) st
        (fails ++ [succ])).exit_loop = false
    ∧ (runLoop (start_listener_addrinfo_iter c debug_mode listen_socket) st
        (fails ++ [succ])).retry_tolerance = NUM_ACCEPT_RETRIES := by
  have h_rt5 : st.retry_tolerance = 5 := h_rt
  have hall := addrinfo_run_tolerated c debug_mode listen_socket st fails h_run h_exit h_fail
    (by rw [h_rt5]; omega)
  obtain ⟨hs, hx, hr, ha, -⟩ := hall
  have hsucc := addrinfo_iter_success c debug_mode listen_socket
    (runLoop (start_listener_addrinfo_iter c debug_mode listen_socket) st fails) succ h_succ
  have hrun : runLoop (start_listener_addrinfo_iter c debug_mode listen_socket) st
      (fails ++ [succ])
      = start_listener_addrinfo_iter c debug_mode listen_socket
          (runLoop (start_listener_addrinfo_iter c debug_mode listen_socket) st fails) succ := by
    rw [runLoop_append]
    simp only [runLoop, hs, if_true]
  refine ⟨?_, ?_, ?_, ?_, ?_, ?_⟩
  · intro n hn
    have hpre := addrinfo_run_tolerated c debug_mode listen_socket st (fails.take n) h_run
      h_exit (fun it hit => h_fail it (List.mem_of_mem_take hit))
      (by rw [h_rt5, List.length_take]; omega)
    refine ⟨hpre.1, ?_⟩
    rw [hpre.2.2.2.1, List.length_take, Nat.min_eq_left hn]
  · rw [hr, h_rt5]
  · rw [hrun, hsucc.2.2.2, ha]
  · rw [hrun, hsucc.1, hs]
  · rw [hrun, hsucc.2.1, hx]
  · rw [hrun, hsucc.2.2.1]

/-- C3 witness: at loop entry, an EINTR and an ENFILE failure followed by the
accept of descriptor 7. -/
theorem C3_tolerated_failures_then_reset_witness :
    (runLoop (start_listener_addrinfo_iter sampleConsts 0 3) (loopEntry [])
        [acceptFails EINTR, acceptFails ENFILE]).retry_tolerance = 5 - 2
    ∧ (runLoop (start_listener_addrinfo_iter sampleConsts 0 3) (loopEntry [])
        ([acceptFails EINTR, acceptFails ENFILE] ++ [acceptsLoopback 7])).retry_tolerance
        = NUM_ACCEPT_RETRIES :=
  have h := C3_tolerated_failures_then_reset sampleConsts 0 3 (loopEntry [])
    [acceptFails EINTR, acceptFails ENFILE] (acceptsLoopback 7) rfl rfl rfl (by decide)
    (by decide) (by decide)
  ⟨h.2.1, h.2.2.2.2.2⟩

/-! ## Readings of a trace -/

theorem telemetry_filterMap (f : Event → Option Int) (hf : ∀ m, f (Event.printf m) = none)
    (d : Int) (st : LoopState) :
    (telemetry d st).trace.filterMap f = st.trace.filterMap f := by
  unfold telemetry
  split <;> [split; skip] <;> simp [List.filterMap_append, hf]

theorem afterLoop_filterMap (f : Event → Option Int)
    (hf : f Event.free = none ∧ f Event.pthread_attr_destroy = none
      ∧ (∀ m, f (Event.log_event m) = none) ∧ (∀ fd, f (Event.close fd) = none))
    (ls rc : Int) (reason : LoopState → Option Msg) (st : LoopState) :
    (afterLoop ls rc reason st).trace.filterMap f = st.trace.filterMap f := by
  obtain ⟨h1, h2, h3, h4⟩ := hf
  unfold afterLoop
  split
  · rfl
  · rfl
  · by_cases hh : st.held = true <;> simp [List.filterMap_append, hh, h1, h2, h3, h4]

/-! ## How one pass extends a reading of the trace -/

theorem loopQuiet_acceptedFd : LoopQuiet Event.acceptedFd := by
  simp [LoopQuiet, Event.acceptedFd]

theorem loopQuiet_dispatchedFd : LoopQuiet Event.dispatchedFd := by
  simp [LoopQuiet, Event.dispatchedFd]

theorem loopQuiet_handledFd : LoopQuiet Event.handledFd := by
  simp [LoopQuiet, Event.handledFd]

theorem loopQuiet_registeredFd : LoopQuiet Event.registeredFd := by
  simp [LoopQuiet, Event.registeredFd]

theorem loopQuiet_enqueuedFd : LoopQuiet Event.enqueuedFd := by
  simp [LoopQuiet, Event.enqueuedFd]

theorem filterMap_cons_toList (f : Event → Option Int) (a : Event) (l : List Event) :
    List.filterMap f (a :: l) = (f a).toList ++ List.filterMap f l := by
  cases h : f a <;> simp [List.filterMap_cons, h]

theorem accept_failed_switch_filterMap (f : Event → Option Int) (hf : LoopQuiet f)
    (errno : Int) (st : LoopState) :
    (accept_failed_switch errno st).trace.filterMap f = st.trace.filterMap f := by
  obtain ⟨-, hs, -⟩ := hf
  unfold accept_failed_switch
  split <;> [split; skip] <;> simp [List.filterMap_append, hs]

/-- Reading of one pass of start_listener: accept is called in every pass, and
a dispatch follows when the handle was allocated and accept succeeded. -/
theorem start_listener_iter_filterMap (f : Event → Option Int) (hf : LoopQuiet f)
    (d ls : Int) (st : LoopState) (it : Iter) :
    (start_listener_iter d ls st it).trace.filterMap f
      = st.trace.filterMap f ++ [Event.accept ls it.acceptRet].filterMap f
        ++ (if it.callocOk = true ∧ it.acceptRet ≠ -1 then
              [if d = TRUE then Event.process_meth it.acceptRet
               else Event.pthread_create it.acceptRet it.threadOk].filterMap f
            else []) := by
  obtain ⟨h1, h2, h3, h4, h5, h6, h7, h8, h9, h10, h11, h12, h13⟩ := hf
  have ht := telemetry_filterMap f h3
  by_cases c1 : it.callocOk = true <;> by_cases c2 : it.acceptRet = -1 <;>
    by_cases c3 : it.acceptErrno = EMFILE <;>
    simp [start_listener_iter, ht, List.filterMap_append, filterMap_cons_toList, c1, c2, c3, h1,
      h2, h3, h4, h5, h7]

/-- Reading of one pass of start_domainsocket_listener: accept is called when
the handle was allocated, and a dispatch follows when accept succeeded. -/
theorem start_domainsocket_listener_iter_filterMap (f : Event → Option Int)
    (hf : LoopQuiet f) (d ls : Int) (st : LoopState) (it : Iter) :
    (start_domainsocket_listener_iter d ls st it).trace.filterMap f
      = st.trace.filterMap f
        ++ (if it.callocOk = true then [Event.accept ls it.acceptRet].filterMap f else [])
        ++ (if it.callocOk = true ∧ it.acceptRet ≠ -1 then
              [if d = TRUE then Event.process_meth it.acceptRet
               else Event.pthread_create it.acceptRet it.threadOk].filterMap f
            else []) := by
  obtain ⟨h1, h2, h3, h4, h5, h6, h7, h8, h9, h10, h11, h12, h13⟩ := hf
  have ht := telemetry_filterMap f h3
  by_cases c1 : it.callocOk = true <;> by_cases c2 : it.acceptRet = -1 <;>
    by_cases c3 : it.acceptErrno = EMFILE <;>
    simp [start_domainsocket_listener_iter, ht, List.filterMap_append, filterMap_cons_toList, c1,
      c2, c3, h1, h2, h3, h4, h5, h7]

/-- Reading of one pass of start_listener_addrinfo. -/
theorem start_listener_addrinfo_iter_filterMap (f : Event → Option Int) (hf : LoopQuiet f)
    (c : Consts) (d ls : Int) (st : LoopState) (it : Iter) :
    (start_listener_addrinfo_iter c d ls st it).trace.filterMap f
      = st.trace.filterMap f
        ++ (if it.callocOk = true then [Event.accept ls it.acceptRet].filterMap f else [])
        ++ (if it.callocOk = true ∧ it.acceptRet ≠ -1 then
              (addrinfo_dispatch c d it).filterMap f else []) := by
  have hsw := accept_failed_switch_filterMap f hf
  obtain ⟨h1, h2, h3, h4, h5, h6, h7, h8, h9, h10, h11, h12, h13⟩ := hf
  have ht := telemetry_filterMap f h3
  by_cases c1 : it.callocOk = true
  · by_cases c2 : it.acceptRet = -1
    · simp only [start_listener_addrinfo_iter, c1, c2, Bool.true_eq_false, if_false, if_true,
        eq_self_iff_true]
      split
      · simp [hsw, List.filterMap_append, filterMap_cons_toList, h1]
      · simp [ht, hsw, List.filterMap_append, filterMap_cons_toList, h1, h4, h5]
    · simp [start_listener_addrinfo_iter, ht, List.filterMap_append, filterMap_cons_toList, c1,
        c2, h1, h6]
  · simp [start_listener_addrinfo_iter, List.filterMap_append, filterMap_cons_toList, c1, h1]

theorem prologue_filterMap (f : Event → Option Int) (hf : LoopQuiet f) (env : AddrinfoEnv) :
    (addrinfo_prologue env).filterMap f = [] := by
  obtain ⟨h1, h2, h3, h4, h5, h6, h7, h8, h9, h10, h11, h12, h13⟩ := hf
  unfold addrinfo_prologue
  split <;> simp [h8]

/-- Outside the loop start_listener_addrinfo makes none of the calls a quiet
reading looks at: the reading of its trace is empty when the loop is not
entered and the reading of the loop otherwise. -/
theorem start_listener_addrinfo_filterMap (c : Consts) (env : AddrinfoEnv) (d : Int)
    (its : List Iter) :
    (∀ f, LoopQuiet f → (start_listener_addrinfo c env d its).trace.filterMap f = [])
    ∨ (∀ f, LoopQuiet f → (start_listener_addrinfo c env d its).trace.filterMap f
        = (runLoop (start_listener_addrinfo_iter c d env.get_listen_socket)
            (loopEntry (addrinfo_prologue env ++ [Event.freeaddrinfo])) its).trace.filterMap f) := by
  unfold start_listener_addrinfo
  split_ifs
  all_goals first
    | (left; intro f hf
       have hp := prologue_filterMap f hf env
       obtain ⟨h1, h2, h3, h4, h5, h6, h7, h8, h9, h10, h11, h12, h13⟩ := hf
       simp [List.filterMap_append, hp, h4, h11]; done)
    | (right; intro f hf
       obtain ⟨h1, h2, h3, h4, h5, h6, h7, h8, h9, h10, h11, h12, h13⟩ := hf
       exact afterLoop_filterMap f ⟨h5, h11, h9, h4⟩ _ _ _ _)

/-! ## C4 : what start_listener_addrinfo filters before registration -/

theorem addrinfo_dispatch_registered (c : Consts) (d : Int) (it : Iter) (hd : d ≠ TRUE) :
    (addrinfo_dispatch c d it).filterMap Event.registeredFd
      = [it.acceptRet].filter (fun fd => decide (fd ≠ c.PBS_LOCAL_CONNECTION)) := by
  unfold addrinfo_dispatch
  by_cases h : it.acceptRet = c.PBS_LOCAL_CONNECTION <;>
    simp [hd, h, Event.registeredFd, List.filter_cons]

theorem addrinfo_dispatch_enqueued (c : Consts) (d : Int) (it : Iter) (hd : d ≠ TRUE) :
    (addrinfo_dispatch c d it).filterMap Event.enqueuedFd
      = [it.acceptRet].filter (fun fd => decide (fd ≠ c.PBS_LOCAL_CONNECTION)) := by
  unfold addrinfo_dispatch
  by_cases h : it.acceptRet = c.PBS_LOCAL_CONNECTION <;>
    simp [hd, h, Event.enqueuedFd, List.filter_cons]

theorem addrinfo_dispatch_accepted (c : Consts) (d : Int) (it : Iter) :
    (addrinfo_dispatch c d it).filterMap Event.acceptedFd = [] := by
  unfold addrinfo_dispatch
  split <;> [skip; split] <;> simp [Event.acceptedFd]

/-- In non-diagnostic mode every pass of the loop of start_listener_addrinfo
keeps: the descriptors registered, and those enqueued, are the accepted ones
other than PBS_LOCAL_CONNECTION. -/
theorem addrinfo_iter_keeps_filter (c : Consts) (d ls : Int) (hd : d ≠ TRUE)
    (st : LoopState) (it : Iter)
    (h : registered st.trace
          = (accepted st.trace).filter (fun fd => decide (fd ≠ c.PBS_LOCAL_CONNECTION))
        ∧ enqueued st.trace
          = (accepted st.trace).filter (fun fd => decide (fd ≠ c.PBS_LOCAL_CONNECTION))) :
    registered (start_listener_addrinfo_iter c d ls st it).trace
        = (accepted (start_listener_addrinfo_iter c d ls st it).trace).filter
            (fun fd => decide (fd ≠ c.PBS_LOCAL_CONNECTION))
    ∧ enqueued (start_listener_addrinfo_iter c d ls st it).trace
        = (accepted (start_listener_addrinfo_iter c d ls st it).trace).filter
            (fun fd => decide (fd ≠ c.PBS_LOCAL_CONNECTION)) := by
  unfold registered enqueued accepted at h ⊢
  rw [start_listener_addrinfo_iter_filterMap _ loopQuiet_registeredFd,
    start_listener_addrinfo_iter_filterMap _ loopQuiet_enqueuedFd,
    start_listener_addrinfo_iter_filterMap _ loopQuiet_acceptedFd,
    addrinfo_dispatch_registered c d it hd, addrinfo_dispatch_enqueued c d it hd,
    addrinfo_dispatch_accepted, h.1, h.2]
  by_cases c1 : it.callocOk = true <;> by_cases c2 : it.acceptRet = -1 <;>
    simp [c1, c2, Event.registeredFd, Event.enqueuedFd, Event.acceptedFd, List.filter_append]

/-- C4, as stated, fails: with debug_mode off, a connection from 127.0.0.1
accepted on descriptor 7 is registered through add_conn and put on the worker
pool. -/
theorem C4_counterexample :
    isLoopback (acceptsLoopback 7).sin_addr = true
    ∧ Event.add_conn 7 2130706433 13330
        ∈ (start_listener_addrinfo sampleConsts addrinfoOk 0 [acceptsLoopback 7]).trace
    ∧ Event.enqueue_threadpool_request 7
        ∈ (start_listener_addrinfo sampleConsts addrinfoOk 0 [acceptsLoopback 7]).trace := by
  decide

/-- C4 (amended): in start_listener_addrinfo with debug_mode off, the filter is
on the descriptor, not on the peer address: over any script, whatever the peer
addresses, the descriptors passed to add_conn and those passed to
enqueue_threadpool_request are, in order, the accepted descriptors other than
PBS_LOCAL_CONNECTION.  A connection whose descriptor equals
PBS_LOCAL_CONNECTION reaches neither call; every other one reaches both. -/
theorem C4_filter_is_on_descriptor (c : Consts) (env : AddrinfoEnv) (debug_mode : Int)
    (its : List Iter) (h_debug : debug_mode ≠ TRUE) :
    registered (start_listener_addrinfo c env debug_mode its).trace
        = (accepted (start_listener_addrinfo c env debug_mode its).trace).filter
            (fun fd => decide (fd ≠ c.PBS_LOCAL_CONNECTION))
    ∧ enqueued (start_listener_addrinfo c env debug_mode its).trace
        = (accepted (start_listener_addrinfo c env debug_mode its).trace).filter
            (fun fd => decide (fd ≠ c.PBS_LOCAL_CONNECTION)) := by
  have hloop := runLoop_invariant (start_listener_addrinfo_iter c debug_mode env.get_listen_socket)
    (fun st => registered st.trace
          = (accepted st.trace).filter (fun fd => decide (fd ≠ c.PBS_LOCAL_CONNECTION))
        ∧ enqueued st.trace
          = (accepted st.trace).filter (fun fd => decide (fd ≠ c.PBS_LOCAL_CONNECTION)))
    (fun _ => True)
    (fun st it _ h => addrinfo_iter_keeps_filter c debug_mode env.get_listen_socket h_debug st it h)
    (loopEntry (addrinfo_prologue env ++ [Event.freeaddrinfo])) its (fun _ _ => trivial)
    (by
      simp [loopEntry, registered, enqueued, accepted, List.filterMap_append,
        prologue_filterMap _ loopQuiet_registeredFd, prologue_filterMap _ loopQuiet_enqueuedFd,
        prologue_filterMap _ loopQuiet_acceptedFd, Event.registeredFd, Event.enqueuedFd,
        Event.acceptedFd])
  unfold registered enqueued accepted at hloop ⊢
  rcases start_listener_addrinfo_filterMap c env debug_mode its with h | h
  · rw [h _ loopQuiet_acceptedFd, h _ loopQuiet_registeredFd, h _ loopQuiet_enqueuedFd]
    simp
  · rw [h _ loopQuiet_acceptedFd, h _ loopQuiet_registeredFd, h _ loopQuiet_enqueuedFd]
    exact hloop

/-- C4 witness: two loopback connections, the first on descriptor 65535 (the
sample PBS_LOCAL_CONNECTION), the second on descriptor 7. -/
theorem C4_filter_is_on_descriptor_witness :
    (0 : Int) ≠ TRUE
    ∧ registered (start_listener_addrinfo sampleConsts addrinfoOk 0
        [acceptsLoopback 65535, acceptsLoopback 7]).trace
        = (accepted (start_listener_addrinfo sampleConsts addrinfoOk 0
            [acceptsLoopback 65535, acceptsLoopback 7]).trace).filter
            (fun fd => decide (fd ≠ sampleConsts.PBS_LOCAL_CONNECTION)) :=
  ⟨by decide,
    (C4_filter_is_on_descriptor sampleConsts addrinfoOk 0
      [acceptsLoopback 65535, acceptsLoopback 7] (by decide)).1⟩

/-! ## C5 : the status returned after a fatal accept failure -/

theorem afterLoop_outcome_exited (ls rc : Int) (reason : LoopState → Option Msg)
    (st : LoopState) (h : st.status = Status.exited) :
    (afterLoop ls rc reason st).outcome = Outcome.returned rc := by
  simp [afterLoop, h]

theorem afterLoop_outcome_pending (ls rc : Int) (reason : LoopState → Option Msg)
    (st : LoopState) (h : (afterLoop ls rc reason st).outcome = Outcome.pending) :
    st.status = Status.running := by
  unfold afterLoop at h
  split at h <;> simp_all

theorem start_listener_pending (c : Consts) (env : TcpEnv) (d port : Int) (its : List Iter)
    (h : (start_listener c env d port its).outcome = Outcome.pending) :
    env.entersLoop port
    ∧ (runLoop (start_listener_iter d env.socket_get_tcp)
        (loopEntry (tcp_started c env port))
        its).status = Status.running := by
  unfold start_listener at h
  split_ifs at h with h1 h2 h3 h4 h5 h6 h7 h8
  exact ⟨⟨h1, h2, h3, h4, h5, h6, not_not.mp h7, not_not.mp h8⟩,
    afterLoop_outcome_pending _ _ _ _ h⟩

theorem start_domainsocket_listener_pending (c : Consts) (env : UnixEnv) (d : Int)
    (its : List Iter)
    (h : (start_domainsocket_listener c env d its).outcome = Outcome.pending) :
    env.entersLoop
    ∧ (runLoop (start_domainsocket_listener_iter d env.socket)
        (loopEntry (unix_started c env))
        its).status = Status.running := by
  unfold start_domainsocket_listener at h
  split_ifs at h with h1 h2 h3 h4 h5 h6
  exact ⟨⟨h1, h2, h3, h4, not_not.mp h5, not_not.mp h6⟩,
    afterLoop_outcome_pending _ _ _ _ h⟩

theorem start_listener_addrinfo_pending (c : Consts) (env : AddrinfoEnv) (d : Int)
    (its : List Iter)
    (h : (start_listener_addrinfo c env d its).outcome = Outcome.pending) :
    env.entersLoop
    ∧ (runLoop (start_listener_addrinfo_iter c d env.get_listen_socket)
        (loopEntry (addrinfo_prologue env ++ [Event.freeaddrinfo])) its).status
        = Status.running := by
  unfold start_listener_addrinfo at h
  split_ifs at h with h1 h2 h3 h4 h5 h6
  exact ⟨⟨h1, h2, h3, h4, not_not.mp h5, not_not.mp h6⟩,
    afterLoop_outcome_pending _ _ _ _ h⟩

/-- A pass that leaves the loop ends the run, whatever the script holds after
it. -/
theorem runLoop_exit_at (body : LoopState → Iter → LoopState) (st : LoopState)
    (pre : List Iter) (it : Iter) (rest : List Iter)
    (h_pre : (runLoop body st pre).status = Status.running)
    (h_it : (body (runLoop body st pre) it).status = Status.exited) :
    (runLoop body st (pre ++ it :: rest)).status = Status.exited := by
  rw [runLoop_append]
  simp only [runLoop, h_pre, if_true]
  rw [runLoop_not_running _ _ _ (by rw [h_it]; decide)]
  exact h_it

theorem addrinfo_iter_fatal (c : Consts) (d ls : Int) (st : LoopState) (it : Iter)
    (h1 : it.callocOk = true) (h2 : it.acceptRet = -1)
    (h3 : ¬ transientErrno it.acceptErrno ∨ st.retry_tolerance ≤ 0) :
    (start_listener_addrinfo_iter c d ls st it).status = Status.exited := by
  by_cases ht : transientErrno it.acceptErrno
  · rcases h3 with h3 | h3
    · exact absurd ht h3
    · rw [addrinfo_iter_exhausted c d ls st it ⟨h1, h2, ht⟩ h3]
  · have ht' : ¬ (it.acceptErrno = EMFILE ∨ it.acceptErrno = ENFILE ∨ it.acceptErrno = EINTR) := ht
    simp [start_listener_addrinfo_iter, accept_failed_switch, h1, h2, ht']

/-- C5, as stated, fails: after a fatal accept failure (EBADF in each of the
three listeners, or the sixth consecutive EMFILE in start_listener_addrinfo)
the function returns 0, which is PBSE_NONE. -/
theorem C5_counterexample :
    (start_listener sampleConsts tcpOk 0 15001 [acceptFails EBADF]).outcome
        = Outcome.returned sampleConsts.PBSE_NONE
    ∧ (start_domainsocket_listener sampleConsts unixOk 0 [acceptFails EBADF]).outcome
        = Outcome.returned sampleConsts.PBSE_NONE
    ∧ (start_listener_addrinfo sampleConsts addrinfoOk 0 [acceptFails EBADF]).outcome
        = Outcome.returned sampleConsts.PBSE_NONE
    ∧ (start_listener_addrinfo sampleConsts addrinfoOk 0
        (List.replicate 6 (acceptFails EMFILE))).outcome
        = Outcome.returned sampleConsts.PBSE_NONE := by
  decide

/-- C5 (amended): with PBSE_NONE = 0, when the accept loop of any of the three
listeners is still accepting after a script `pre` and the next accept fails
fatally (errno other than EMFILE in start_listener and
start_domainsocket_listener; errno outside EMFILE, ENFILE, EINTR, or
retry_tolerance used up, in start_listener_addrinfo), the function returns, and
what it returns is PBSE_NONE: rc still holds the 0 of the successful
pthread_attr_setdetachstate and the loop never assigns it. -/
theorem C5_fatal_accept_returns_PBSE_NONE (c : Consts) (tenv : TcpEnv) (uenv : UnixEnv)
    (aenv : AddrinfoEnv) (debug_mode server_port : Int) (pre : List Iter) (fatal : Iter)
    (rest : List Iter) (h_none : c.PBSE_NONE = 0)
    (h_alloc : fatal.callocOk = true) (h_fail : fatal.acceptRet = -1) :
    ((start_listener c tenv debug_mode server_port pre).outcome = Outcome.pending →
      fatal.acceptErrno ≠ EMFILE →
      (start_listener c tenv debug_mode server_port (pre ++ fatal :: rest)).outcome
        = Outcome.returned c.PBSE_NONE)
    ∧ ((start_domainsocket_listener c uenv debug_mode pre).outcome = Outcome.pending →
      fatal.acceptErrno ≠ EMFILE →
      (start_domainsocket_listener c uenv debug_mode (pre ++ fatal :: rest)).outcome
        = Outcome.returned c.PBSE_NONE)
    ∧ ((start_listener_addrinfo c aenv debug_mode pre).outcome = Outcome.pending →
      (¬ transientErrno fatal.acceptErrno
        ∨ (runLoop (start_listener_addrinfo_iter c debug_mode aenv.get_listen_socket)
            (loopEntry (addrinfo_prologue aenv ++ [Event.freeaddrinfo]))
            pre).retry_tolerance ≤ 0) →
      (start_listener_addrinfo c aenv debug_mode (pre ++ fatal :: rest)).outcome
        = Outcome.returned c.PBSE_NONE) := by
  refine ⟨?_, ?_, ?_⟩
  · intro hp he
    obtain ⟨henv, hrun⟩ := start_listener_pending c tenv debug_mode server_port pre hp
    rw [start_listener_enters c tenv debug_mode server_port _ henv, h_none]
    apply afterLoop_outcome_exited
    apply runLoop_exit_at _ _ _ _ _ hrun
    exact (start_listener_iter_exits_iff _ _ _ fatal hrun h_alloc).mpr ⟨h_fail, he⟩
  · intro hp he
    obtain ⟨henv, hrun⟩ := start_domainsocket_listener_pending c uenv debug_mode pre hp
    rw [start_domainsocket_listener_enters c uenv debug_mode _ henv, h_none]
    apply afterLoop_outcome_exited
    apply runLoop_exit_at _ _ _ _ _ hrun
    exact (start_domainsocket_listener_iter_exits_iff _ _ _ fatal hrun h_alloc).mpr ⟨h_fail, he⟩
  · intro hp he
    obtain ⟨henv, hrun⟩ := start_listener_addrinfo_pending c aenv debug_mode pre hp
    rw [start_listener_addrinfo_enters c aenv debug_mode _ henv, h_none]
    apply afterLoop_outcome_exited
    apply runLoop_exit_at _ _ _ _ _ hrun
    exact addrinfo_iter_fatal _ _ _ _ fatal h_alloc h_fail he

/-- C5 witness: one accepted connection, then an accept failure with EBADF. -/
theorem C5_fatal_accept_returns_PBSE_NONE_witness :
    (start_listener sampleConsts tcpOk 0 15001 [acceptsLoopback 7]).outcome = Outcome.pending
    ∧ EBADF ≠ EMFILE
    ∧ (start_listener sampleConsts tcpOk 0 15001
        ([acceptsLoopback 7] ++ acceptFails EBADF :: [])).outcome
        = Outcome.returned sampleConsts.PBSE_NONE
    ∧ (start_domainsocket_listener sampleConsts unixOk 0
        ([acceptsLoopback 7] ++ acceptFails EBADF :: [])).outcome
        = Outcome.returned sampleConsts.PBSE_NONE
    ∧ (start_listener_addrinfo sampleConsts addrinfoOk 0
        ([acceptsLoopback 7] ++ acceptFails EBADF :: [])).outcome
        = Outcome.returned sampleConsts.PBSE_NONE :=
  have h := C5_fatal_accept_returns_PBSE_NONE sampleConsts tcpOk unixOk addrinfoOk 0 15001
    [acceptsLoopback 7] (acceptFails EBADF) [] rfl rfl rfl
  ⟨by decide, by decide, h.1 (by decide) (by decide), h.2.1 (by decide) (by decide),
    h.2.2 (by decide) (Or.inl (by decide))⟩

/-! ## C6 : one dispatch per accepted connection -/

/-- Outside the loop start_listener makes none of the calls a quiet reading
looks at. -/
theorem start_listener_filterMap (c : Consts) (env : TcpEnv) (d port : Int)
    (its : List Iter) :
    (∀ f, LoopQuiet f → (start_listener c env d port its).trace.filterMap f = [])
    ∨ (∀ f, LoopQuiet f → (start_listener c env d port its).trace.filterMap f
        = (runLoop (start_listener_iter d env.socket_get_tcp)
            (loopEntry (tcp_started c env port)) its).trace.filterMap f) := by
  unfold start_listener
  split_ifs
  all_goals first
    | (left; intro f hf
       obtain ⟨h1, h2, h3, h4, h5, h6, h7, h8, h9, h10, h11, h12, h13⟩ := hf
       simp [h4, h11]; done)
    | (right; intro f hf
       obtain ⟨h1, h2, h3, h4, h5, h6, h7, h8, h9, h10, h11, h12, h13⟩ := hf
       exact afterLoop_filterMap f ⟨h5, h11, h9, h4⟩ _ _ _ _)

/-- Outside the loop start_domainsocket_listener makes none of the calls a
quiet reading looks at. -/
theorem start_domainsocket_listener_filterMap (c : Consts) (env : UnixEnv) (d : Int)
    (its : List Iter) :
    (∀ f, LoopQuiet f → (start_domainsocket_listener c env d its).trace.filterMap f = [])
    ∨ (∀ f, LoopQuiet f → (start_domainsocket_listener c env d its).trace.filterMap f
        = (runLoop (start_domainsocket_listener_iter d env.socket)
            (loopEntry (unix_started c env)) its).trace.filterMap f) := by
  unfold start_domainsocket_listener
  split_ifs
  all_goals first
    | (left; intro f hf
       obtain ⟨h1, h2, h3, h4, h5, h6, h7, h8, h9, h10, h11, h12, h13⟩ := hf
       simp [h4, h9, h11, h13]; done)
    | (right; intro f hf
       obtain ⟨h1, h2, h3, h4, h5, h6, h7, h8, h9, h10, h11, h12, h13⟩ := hf
       exact afterLoop_filterMap f ⟨h5, h11, h9, h4⟩ _ _ _ _)

theorem tcp_started_filterMap (f : Event → Option Int) (hf : LoopQuiet f) (c : Consts)
    (env : TcpEnv) (port : Int) : (tcp_started c env port).filterMap f = [] := by
  obtain ⟨h1, h2, h3, h4, h5, h6, h7, h8, h9, h10, h11, h12, h13⟩ := hf
  unfold tcp_started
  split <;> simp [h9]

theorem unix_started_filterMap (f : Event → Option Int) (hf : LoopQuiet f) (c : Consts)
    (env : UnixEnv) : (unix_started c env).filterMap f = [] := by
  obtain ⟨h1, h2, h3, h4, h5, h6, h7, h8, h9, h10, h11, h12, h13⟩ := hf
  unfold unix_started
  split <;> simp [h9, h13]

/-- A pass of start_listener whose handle allocation succeeds keeps the
descriptors dispatched equal to the descriptors accepted. -/
theorem start_listener_iter_keeps_dispatch (d ls : Int) (st : LoopState) (it : Iter)
    (h_alloc : it.callocOk = true) (h : dispatched st.trace = accepted st.trace) :
    dispatched (start_listener_iter d ls st it).trace
      = accepted (start_listener_iter d ls st it).trace := by
  unfold dispatched accepted at h ⊢
  rw [start_listener_iter_filterMap _ loopQuiet_dispatchedFd,
    start_listener_iter_filterMap _ loopQuiet_acceptedFd, h]
  by_cases c2 : it.acceptRet = -1 <;> by_cases c3 : d = TRUE <;>
    simp [h_alloc, c2, c3, Event.dispatchedFd, Event.acceptedFd]

/-- A pass of start_listener whose handle allocation succeeds, in diagnostic
mode or with a successful pthread_create, keeps the descriptors handled equal
to the descriptors accepted. -/
theorem start_listener_iter_keeps_handled (d ls : Int) (st : LoopState) (it : Iter)
    (h_ok : it.callocOk = true ∧ (d = TRUE ∨ it.threadOk = true))
    (h : handled st.trace = accepted st.trace) :
    handled (start_listener_iter d ls st it).trace
      = accepted (start_listener_iter d ls st it).trace := by
  unfold handled accepted at h ⊢
  rw [start_listener_iter_filterMap _ loopQuiet_handledFd,
    start_listener_iter_filterMap _ loopQuiet_acceptedFd, h]
  obtain ⟨h_alloc, h_thr⟩ := h_ok
  by_cases c2 : it.acceptRet = -1 <;> by_cases c3 : d = TRUE
  · simp [h_alloc, c2, c3, Event.handledFd, Event.acceptedFd]
  · simp [h_alloc, c2, c3, Event.handledFd, Event.acceptedFd]
  · simp [h_alloc, c2, c3, Event.handledFd, Event.acceptedFd]
  · have ht : it.threadOk = true := h_thr.resolve_left c3
    simp [h_alloc, c2, c3, ht, Event.handledFd, Event.acceptedFd]

/-- Every pass of start_domainsocket_listener keeps the descriptors dispatched
equal to the descriptors accepted. -/
theorem start_domainsocket_listener_iter_keeps_dispatch (d ls : Int) (st : LoopState)
    (it : Iter) (h : dispatched st.trace = accepted st.trace) :
    dispatched (start_domainsocket_listener_iter d ls st it).trace
      = accepted (start_domainsocket_listener_iter d ls st it).trace := by
  unfold dispatched accepted at h ⊢
  rw [start_domainsocket_listener_iter_filterMap _ loopQuiet_dispatchedFd,
    start_domainsocket_listener_iter_filterMap _ loopQuiet_acceptedFd, h]
  by_cases c1 : it.callocOk = true <;> by_cases c2 : it.acceptRet = -1 <;>
    by_cases c3 : d = TRUE <;>
    simp [c1, c2, c3, Event.dispatchedFd, Event.acceptedFd]

/-- A pass of start_domainsocket_listener, in diagnostic mode or with a
successful pthread_create, keeps the descriptors handled equal to the
descriptors accepted. -/
theorem start_domainsocket_listener_iter_keeps_handled (d ls : Int) (st : LoopState)
    (it : Iter) (h_thr : d = TRUE ∨ it.threadOk = true)
    (h : handled st.trace = accepted st.trace) :
    handled (start_domainsocket_listener_iter d ls st it).trace
      = accepted (start_domainsocket_listener_iter d ls st it).trace := by
  unfold handled accepted at h ⊢
  rw [start_domainsocket_listener_iter_filterMap _ loopQuiet_handledFd,
    start_domainsocket_listener_iter_filterMap _ loopQuiet_acceptedFd, h]
  by_cases c1 : it.callocOk = true <;> by_cases c2 : it.acceptRet = -1 <;>
    by_cases c3 : d = TRUE
  all_goals first
    | (simp [c1, c2, c3, Event.handledFd, Event.acceptedFd]; done)
    | (have ht : it.threadOk = true := h_thr.resolve_left c3
       simp [c1, c2, c3, ht, Event.handledFd, Event.acceptedFd])

/-- C6, as stated, fails: with debug_mode off, when pthread_create fails for
the connection accepted on descriptor 7 the handler is never invoked on it, in
start_listener and in start_domainsocket_listener alike. -/
theorem C6_counterexample :
    accepted (start_listener sampleConsts tcpOk 0 15001 [acceptsThreadFails 7]).trace = [7]
    ∧ handled (start_listener sampleConsts tcpOk 0 15001 [acceptsThreadFails 7]).trace = []
    ∧ accepted (start_domainsocket_listener sampleConsts unixOk 0
        [acceptsThreadFails 7]).trace = [7]
    ∧ handled (start_domainsocket_listener sampleConsts unixOk 0
        [acceptsThreadFails 7]).trace = [] := by
  decide

/-- C6 (amended): for either value of debug_mode, over every script
(start_domainsocket_listener) or every script whose handle allocations succeed
(start_listener), the descriptors handed to process_meth, inline or through
pthread_create, are the descriptors returned by the successful accept calls,
in the same order: one dispatch per accepted connection.  The handler runs
once per accepted connection in diagnostic mode or when every pthread_create
succeeds; the result of pthread_create is not inspected. -/
theorem C6_one_dispatch_per_accept (c : Consts) (tenv : TcpEnv) (uenv : UnixEnv)
    (debug_mode server_port : Int) (its : List Iter) :
    ((∀ it ∈ its, it.callocOk = true) →
      dispatched (start_listener c tenv debug_mode server_port its).trace
          = accepted (start_listener c tenv debug_mode server_port its).trace
      ∧ ((debug_mode = TRUE ∨ ∀ it ∈ its, it.threadOk = true) →
          handled (start_listener c tenv debug_mode server_port its).trace
            = accepted (start_listener c tenv debug_mode server_port its).trace))
    ∧ dispatched (start_domainsocket_listener c uenv debug_mode its).trace
        = accepted (start_domainsocket_listener c uenv debug_mode its).trace
    ∧ ((debug_mode = TRUE ∨ ∀ it ∈ its, it.threadOk = true) →
        handled (start_domainsocket_listener c uenv debug_mode its).trace
          = accepted (start_domainsocket_listener c uenv debug_mode its).trace) := by
  have e_tcp : ∀ f, LoopQuiet f →
      (loopEntry (tcp_started c tenv server_port)).trace.filterMap f = [] :=
    fun f hf => tcp_started_filterMap f hf c tenv server_port
  have e_unix : ∀ f, LoopQuiet f → (loopEntry (unix_started c uenv)).trace.filterMap f = [] :=
    fun f hf => unix_started_filterMap f hf c uenv
  have thr : (debug_mode = TRUE ∨ ∀ it ∈ its, it.threadOk = true) →
      ∀ it ∈ its, debug_mode = TRUE ∨ it.threadOk = true := by
    intro h it hit
    rcases h with h | h
    · exact Or.inl h
    · exact Or.inr (h it hit)
  refine ⟨?_, ?_, ?_⟩
  · intro h_alloc
    refine ⟨?_, ?_⟩
    · have hloop := runLoop_invariant (start_listener_iter debug_mode tenv.socket_get_tcp)
        (fun st => dispatched st.trace = accepted st.trace) (fun it => it.callocOk = true)
        (fun st it hit h => start_listener_iter_keeps_dispatch _ _ st it hit h)
        (loopEntry (tcp_started c tenv server_port)) its h_alloc
        (by beta_reduce
            unfold dispatched accepted
            rw [e_tcp _ loopQuiet_dispatchedFd, e_tcp _ loopQuiet_acceptedFd])
      unfold dispatched accepted at hloop ⊢
      rcases start_listener_filterMap c tenv debug_mode server_port its with h | h
      · rw [h _ loopQuiet_dispatchedFd, h _ loopQuiet_acceptedFd]
      · rw [h _ loopQuiet_dispatchedFd, h _ loopQuiet_acceptedFd]; exact hloop
    · intro h_thr
      have hloop := runLoop_invariant (start_listener_iter debug_mode tenv.socket_get_tcp)
        (fun st => handled st.trace = accepted st.trace)
        (fun it => it.callocOk = true ∧ (debug_mode = TRUE ∨ it.threadOk = true))
        (fun st it hit h => start_listener_iter_keeps_handled _ _ st it hit h)
        (loopEntry (tcp_started c tenv server_port)) its
        (fun it hit => ⟨h_alloc it hit, thr h_thr it hit⟩)
        (by beta_reduce
            unfold handled accepted
            rw [e_tcp _ loopQuiet_handledFd, e_tcp _ loopQuiet_acceptedFd])
      unfold handled accepted at hloop ⊢
      rcases start_listener_filterMap c tenv debug_mode server_port its with h | h
      · rw [h _ loopQuiet_handledFd, h _ loopQuiet_acceptedFd]
      · rw [h _ loopQuiet_handledFd, h _ loopQuiet_acceptedFd]; exact hloop
  · have hloop := runLoop_invariant (start_domainsocket_listener_iter debug_mode uenv.socket)
      (fun st => dispatched st.trace = accepted st.trace) (fun _ => True)
      (fun st it _ h => start_domainsocket_listener_iter_keeps_dispatch _ _ st it h)
      (loopEntry (unix_started c uenv)) its (fun _ _ => trivial)
      (by beta_reduce
          unfold dispatched accepted
          rw [e_unix _ loopQuiet_dispatchedFd, e_unix _ loopQuiet_acceptedFd])
    unfold dispatched accepted at hloop ⊢
    rcases start_domainsocket_listener_filterMap c uenv debug_mode its with h | h
    · rw [h _ loopQuiet_dispatchedFd, h _ loopQuiet_acceptedFd]
    · rw [h _ loopQuiet_dispatchedFd, h _ loopQuiet_acceptedFd]; exact hloop
  · intro h_thr
    have hloop := runLoop_invariant (start_domainsocket_listener_iter debug_mode uenv.socket)
      (fun st => handled st.trace = accepted st.trace)
      (fun it => debug_mode = TRUE ∨ it.threadOk = true)
      (fun st it hit h => start_domainsocket_listener_iter_keeps_handled _ _ st it hit h)
      (loopEntry (unix_started c uenv)) its (thr h_thr)
      (by beta_reduce
          unfold handled accepted
          rw [e_unix _ loopQuiet_handledFd, e_unix _ loopQuiet_acceptedFd])
    unfold handled accepted at hloop ⊢
    rcases start_domainsocket_listener_filterMap c uenv debug_mode its with h | h
    · rw [h _ loopQuiet_handledFd, h _ loopQuiet_acceptedFd]
    · rw [h _ loopQuiet_handledFd, h _ loopQuiet_acceptedFd]; exact hloop

/-- C6 witness: two accepted connections around an EMFILE failure, threads
created, debug_mode off. -/
theorem C6_one_dispatch_per_accept_witness :
    dispatched (start_listener sampleConsts tcpOk 0 15001
        [acceptsLoopback 7, acceptFails EMFILE, acceptsLoopback 8]).trace
      = accepted (start_listener sampleConsts tcpOk 0 15001
        [acceptsLoopback 7, acceptFails EMFILE, acceptsLoopback 8]).trace
    ∧ handled (start_listener sampleConsts tcpOk 0 15001
        [acceptsLoopback 7, acceptFails EMFILE, acceptsLoopback 8]).trace
      = accepted (start_listener sampleConsts tcpOk 0 15001
        [acceptsLoopback 7, acceptFails EMFILE, acceptsLoopback 8]).trace
    ∧ handled (start_domainsocket_listener sampleConsts unixOk 0
        [acceptsLoopback 7, acceptFails EMFILE, acceptsLoopback 8]).trace
      = accepted (start_domainsocket_listener sampleConsts unixOk 0
        [acceptsLoopback 7, acceptFails EMFILE, acceptsLoopback 8]).trace
    ∧ accepted (start_listener sampleConsts tcpOk 0 15001
        [acceptsLoopback 7, acceptFails EMFILE, acceptsLoopback 8]).trace = [7, 8] :=
  have h := C6_one_dispatch_per_accept sampleConsts tcpOk unixOk 0 15001
    [acceptsLoopback 7, acceptFails EMFILE, acceptsLoopback 8]
  ⟨(h.1 (by decide)).1, (h.1 (by decide)).2 (Or.inr (by decide)),
    h.2.2 (Or.inr (by decide)), by decide⟩

/-! ## C7 : allocation failure of the connection handle -/

/-- C7 at the failing input: with calloc returning NULL in the first pass,
start_listener calls accept on the listening socket and stores the result
through the NULL handle; the run ends in that invalid store.  On the same
input start_domainsocket_listener and start_listener_addrinfo leave the loop
without calling accept and return. -/
theorem C7_start_listener_uses_null_handle :
    start_listener sampleConsts tcpOk 0 15001 [callocFails 7]
      = { trace := [Event.calloc false, Event.accept 3 7, Event.null_store],
          outcome := Outcome.fault }
    ∧ start_domainsocket_listener sampleConsts unixOk 0 [callocFails 7]
      = { trace := [Event.unlink, Event.calloc false,
            Event.printf Msg.error_allocating_on_accept, Event.pthread_attr_destroy,
            Event.log_event (some Msg.socket_close_requested), Event.close 3],
          outcome := Outcome.returned 0 }
    ∧ start_listener_addrinfo sampleConsts addrinfoOk 0 [callocFails 7]
      = { trace := [Event.freeaddrinfo, Event.calloc false, Event.pthread_attr_destroy,
            Event.log_event (some Msg.error_allocating_stopping), Event.close 3],
          outcome := Outcome.returned 0 } := by
  decide

/-! ## C8 : start_listener with a zero port -/

theorem htons_eq_zero_iff (x : Int) : htons x = 0 ↔ x % 65536 = 0 := by
  unfold htons
  have h0 : 0 ≤ x % 65536 := Int.emod_nonneg x (by decide)
  have h1 : x % 65536 < 65536 := Int.emod_lt_of_pos x (by decide)
  constructor
  · intro h
    simp only at h
    omega
  · intro h
    simp [h]

/-- C8 at the failing inputs: for every port that is 0 or whose network-order
16-bit value is 0, start_listener takes the empty first branch: it makes no
provisioning call, calls close on descriptor 0 (the initial value of
listen_socket) and returns PBSE_NONE. -/
theorem C8_zero_port_returns_PBSE_NONE (c : Consts) (env : TcpEnv)
    (debug_mode server_port : Int) (its : List Iter)
    (h_port : server_port = 0 ∨ htons server_port = 0) :
    start_listener c env debug_mode server_port its
      = { trace := [Event.close 0], outcome := Outcome.returned c.PBSE_NONE } := by
  have h : htons server_port = 0 := by
    rcases h_port with h | h
    · rw [h]; decide
    · exact h
  simp [start_listener, h]

/-- C8 witness: port 0. -/
theorem C8_zero_port_returns_PBSE_NONE_witness :
    ((0 : Int) = 0 ∨ htons 0 = 0)
    ∧ start_listener sampleConsts tcpOk 0 0 [acceptsLoopback 7]
      = { trace := [Event.close 0], outcome := Outcome.returned sampleConsts.PBSE_NONE } :=
  ⟨Or.inl rfl, C8_zero_port_returns_PBSE_NONE sampleConsts tcpOk 0 0 [acceptsLoopback 7]
    (Or.inl rfl)⟩

/-! ## C9 : start_listener_addrinfo after a failed getaddrinfo -/

/-- C9 at the failing input: getaddrinfo fails and the later provisioning
calls succeed.  The function goes on past the assignment of PBSE_SOCKET_FAULT:
it enters the loop and accepts and dispatches a connection; on a fatal accept
failure it returns 0, not PBSE_SOCKET_FAULT; and when the access through the
unset `adr_svr` is invalid it does not return at all. -/
theorem C9_unresolved_host_reaches_accept :
    Event.accept 3 7
        ∈ (start_listener_addrinfo sampleConsts addrinfoUnresolved 0 [acceptsLoopback 7]).trace
    ∧ Event.enqueue_threadpool_request 7
        ∈ (start_listener_addrinfo sampleConsts addrinfoUnresolved 0 [acceptsLoopback 7]).trace
    ∧ (start_listener_addrinfo sampleConsts addrinfoUnresolved 0 [acceptsLoopback 7]).outcome
        = Outcome.pending
    ∧ (start_listener_addrinfo sampleConsts addrinfoUnresolved 0 [acceptFails EBADF]).outcome
        = Outcome.returned 0
    ∧ (0 : Int) ≠ sampleConsts.PBSE_SOCKET_FAULT
    ∧ (start_listener_addrinfo sampleConsts addrinfoUnresolvedWild 0 [acceptsLoopback 7]).outcome
        = Outcome.fault := by
  decide

/-! ## C10 : the close of the listening socket -/

/-- C10 at the failing input: when calloc returns NULL in a pass of
start_listener, at loop entry or after a dispatched connection, the run ends
in the store through the NULL handle: close is never called on the listening
socket (descriptor 3) and the function does not return. -/
theorem C10_start_listener_null_handle_never_closes :
    (start_listener sampleConsts tcpOk 0 15001 [callocFails 7]).outcome = Outcome.fault
    ∧ List.count (Event.close 3)
        (start_listener sampleConsts tcpOk 0 15001 [callocFails 7]).trace = 0
    ∧ (start_listener sampleConsts tcpOk 0 15001 [acceptsLoopback 7, callocFails 8]).outcome
        = Outcome.fault
    ∧ List.count (Event.close 3)
        (start_listener sampleConsts tcpOk 0 15001 [acceptsLoopback 7, callocFails 8]).trace
        = 0 := by
  decide

/-! ## The final close in executions that return -/

theorem afterLoop_returned (ls rc rc' : Int) (reason : LoopState → Option Msg)
    (st : LoopState) (h : (afterLoop ls rc reason st).outcome = Outcome.returned rc') :
    st.status = Status.exited := by
  unfold afterLoop at h
  split at h <;> simp_all

theorem afterLoop_trace_exited (ls rc : Int) (reason : LoopState → Option Msg)
    (st : LoopState) (h : st.status = Status.exited) :
    (afterLoop ls rc reason st).trace
      = st.trace ++ (if st.held then [Event.free] else [])
        ++ [Event.pthread_attr_destroy, Event.log_event (reason st), Event.close ls] := by
  simp [afterLoop, h]

theorem afterLoop_closes_once (ls rc rc' : Int) (reason : LoopState → Option Msg)
    (st : LoopState) (h : (afterLoop ls rc reason st).outcome = Outcome.returned rc')
    (h0 : List.count (Event.close ls) st.trace = 0) :
    (afterLoop ls rc reason st).trace.getLast? = some (Event.close ls)
    ∧ List.count (Event.close ls) (afterLoop ls rc reason st).trace = 1 := by
  rw [afterLoop_trace_exited ls rc reason st (afterLoop_returned ls rc rc' reason st h)]
  by_cases hh : st.held = true <;>
    simp [List.getLast?_append, List.count_append, List.count_cons, h0, hh]

theorem telemetry_count_close (ls d : Int) (st : LoopState) :
    List.count (Event.close ls) (telemetry d st).trace
      = List.count (Event.close ls) st.trace := by
  unfold telemetry
  split <;> [split; skip] <;> simp [List.count_append, List.count_cons]

theorem start_listener_iter_count_close (d ls : Int) (st : LoopState) (it : Iter)
    (h : ls ≠ -1) (h0 : List.count (Event.close ls) st.trace = 0) :
    List.count (Event.close ls) (start_listener_iter d ls st it).trace = 0 := by
  by_cases c1 : it.callocOk = true <;> by_cases c2 : it.acceptRet = -1 <;>
    by_cases c3 : it.acceptErrno = EMFILE <;> by_cases c4 : d = TRUE <;>
    simp [start_listener_iter, telemetry_count_close, List.count_append, List.count_cons, c1,
      c2, c3, c4, h, Ne.symm h, h0]

theorem start_domainsocket_listener_iter_count_close (d ls : Int) (st : LoopState)
    (it : Iter) (h : ls ≠ -1) (h0 : List.count (Event.close ls) st.trace = 0) :
    List.count (Event.close ls) (start_domainsocket_listener_iter d ls st it).trace = 0 := by
  by_cases c1 : it.callocOk = true <;> by_cases c2 : it.acceptRet = -1 <;>
    by_cases c3 : it.acceptErrno = EMFILE <;> by_cases c4 : d = TRUE <;>
    simp [start_domainsocket_listener_iter, telemetry_count_close, List.count_append,
      List.count_cons, c1, c2, c3, c4, h, Ne.symm h, h0]

theorem accept_failed_switch_count_close (ls errno : Int) (st : LoopState) :
    List.count (Event.close ls) (accept_failed_switch errno st).trace
      = List.count (Event.close ls) st.trace := by
  unfold accept_failed_switch
  split <;> [split; skip] <;> simp [List.count_append, List.count_cons]

theorem addrinfo_dispatch_count_close (c : Consts) (d ls : Int) (it : Iter) :
    List.count (Event.close ls) (addrinfo_dispatch c d it) = 0 := by
  unfold addrinfo_dispatch
  split <;> [skip; split] <;> simp [List.count_cons]

theorem start_listener_addrinfo_iter_count_close (c : Consts) (d ls : Int) (st : LoopState)
    (it : Iter) (h : ls ≠ -1) (h0 : List.count (Event.close ls) st.trace = 0) :
    List.count (Event.close ls) (start_listener_addrinfo_iter c d ls st it).trace = 0 := by
  by_cases c1 : it.callocOk = true
  · by_cases c2 : it.acceptRet = -1
    · simp only [start_listener_addrinfo_iter, c1, c2, Bool.true_eq_false, if_false, if_true,
        eq_self_iff_true]
      split
      · simp [accept_failed_switch_count_close, List.count_append, List.count_cons, h0]
      · simp [telemetry_count_close, accept_failed_switch_count_close, List.count_append,
          List.count_cons, h0, h, Ne.symm h]
    · simp [start_listener_addrinfo_iter, telemetry_count_close, addrinfo_dispatch_count_close,
        List.count_append, List.count_cons, c1, c2, h0]
  · simp [start_listener_addrinfo_iter, List.count_append, List.count_cons, c1, h0]

/-- In every execution of start_listener that returns, the last call is the
close of `listen_socket` and no other call closes that descriptor. -/
theorem start_listener_returned_closes_once (c : Consts) (env : TcpEnv) (d port : Int)
    (its : List Iter) (rc : Int)
    (h : (start_listener c env d port its).outcome = Outcome.returned rc) :
    (start_listener c env d port its).trace.getLast?
        = some (Event.close (tcp_listen_socket env port))
    ∧ List.count (Event.close (tcp_listen_socket env port))
        (start_listener c env d port its).trace = 1 := by
  unfold start_listener tcp_listen_socket at *
  split_ifs at h ⊢ with h1 h2 h3 h4 h5 h6 h7 h8 h9 <;>
    first
    | (apply afterLoop_closes_once _ _ _ _ _ h
       have hne : env.socket_get_tcp ≠ -1 := by omega
       apply runLoop_invariant (start_listener_iter d env.socket_get_tcp)
         (fun st => List.count (Event.close env.socket_get_tcp) st.trace = 0) (fun _ => True)
         (fun st it _ h0 => start_listener_iter_count_close d _ st it hne h0) _ its
         (fun _ _ => trivial)
       unfold loopEntry tcp_started
       split <;> simp [List.count_cons])
    | simp_all [List.count_cons]

/-- In every execution of start_domainsocket_listener that returns, the last
call is the close of `listen_socket` and no other call closes that
descriptor. -/
theorem start_domainsocket_listener_returned_closes_once (c : Consts) (env : UnixEnv)
    (d : Int) (its : List Iter) (rc : Int)
    (h : (start_domainsocket_listener c env d its).outcome = Outcome.returned rc) :
    (start_domainsocket_listener c env d its).trace.getLast? = some (Event.close env.socket)
    ∧ List.count (Event.close env.socket) (start_domainsocket_listener c env d its).trace
        = 1 := by
  unfold start_domainsocket_listener at *
  split_ifs at h ⊢ with h1 h2 h3 h4 h5 h6 <;>
    first
    | (apply afterLoop_closes_once _ _ _ _ _ h
       have hne : env.socket ≠ -1 := by omega
       apply runLoop_invariant (start_domainsocket_listener_iter d env.socket)
         (fun st => List.count (Event.close env.socket) st.trace = 0) (fun _ => True)
         (fun st it _ h0 => start_domainsocket_listener_iter_count_close d _ st it hne h0) _ its
         (fun _ _ => trivial)
       unfold loopEntry unix_started
       split <;> simp [List.count_cons])
    | simp [List.count_cons]

/-- In every execution of start_listener_addrinfo that returns, the last call
is the close of `listen_socket` and no other call closes that descriptor. -/
theorem start_listener_addrinfo_returned_closes_once (c : Consts) (env : AddrinfoEnv)
    (d : Int) (its : List Iter) (rc : Int)
    (h : (start_listener_addrinfo c env d its).outcome = Outcome.returned rc) :
    (start_listener_addrinfo c env d its).trace.getLast?
        = some (Event.close env.get_listen_socket)
    ∧ List.count (Event.close env.get_listen_socket)
        (start_listener_addrinfo c env d its).trace = 1 := by
  have hp : List.count (Event.close env.get_listen_socket) (addrinfo_prologue env) = 0 := by
    unfold addrinfo_prologue
    split <;> simp [List.count_cons]
  unfold start_listener_addrinfo at *
  split_ifs at h ⊢ with h1 h2 h3 h4 h5 h6 <;>
    first
    | (apply afterLoop_closes_once _ _ _ _ _ h
       have hne : env.get_listen_socket ≠ -1 := by omega
       apply runLoop_invariant (start_listener_addrinfo_iter c d env.get_listen_socket)
         (fun st => List.count (Event.close env.get_listen_socket) st.trace = 0)
         (fun _ => True)
         (fun st it _ h0 => start_listener_addrinfo_iter_count_close c d _ st it hne h0) _ its
         (fun _ _ => trivial)
       simp [loopEntry, List.count_append, List.count_cons, hp])
    | simp [List.count_cons, List.count_append, List.getLast?_append, hp]

/-! ## C12 : synchronous dispatch in diagnostic mode -/

theorem runLoop_invariant_running (body : LoopState → Iter → LoopState)
    (I : LoopState → Prop)
    (hbody : ∀ st it, st.status = Status.running → I st → I (body st it))
    (st : LoopState) (its : List Iter) (h0 : I st) : I (runLoop body st its) := by
  induction its generalizing st with
  | nil => exact h0
  | cons it rest ih =>
    by_cases h : st.status = Status.running
    · simp only [runLoop, h, if_true]
      exact ih (body st it) (hbody st it h h0)
    · simp only [runLoop, h, if_false]
      exact h0

theorem syncFrom_append (w : Option Int) (xs ys : List Event) :
    syncFrom w (xs ++ ys) = (syncFrom w xs).bind (fun w' => syncFrom w' ys) := by
  induction xs generalizing w with
  | nil => simp [syncFrom]
  | cons x xs ih =>
    simp only [List.cons_append, syncFrom]
    cases syncStep w x with
    | none => simp
    | some w' => simp [ih]

theorem telemetry_sync (w : Option Int) (d : Int) (st : LoopState) :
    syncFrom w (telemetry d st).trace = syncFrom w st.trace := by
  unfold telemetry
  split <;> [split; skip] <;> simp [syncFrom_append, syncFrom, syncStep]

theorem afterLoop_sync (w : Option Int) (ls rc : Int) (reason : LoopState → Option Msg)
    (st : LoopState) :
    syncFrom w (afterLoop ls rc reason st).trace = syncFrom w st.trace := by
  unfold afterLoop
  split
  · rfl
  · rfl
  · by_cases hh : st.held = true <;> simp [syncFrom_append, syncFrom, syncStep, hh]

theorem afterLoop_outcome_fault (ls rc : Int) (reason : LoopState → Option Msg)
    (st : LoopState) (h : (afterLoop ls rc reason st).outcome ≠ Outcome.fault) :
    st.status ≠ Status.fault := by
  intro hs
  apply h
  simp [afterLoop, hs]

/-- In diagnostic mode a pass of start_listener entered with no handler
outstanding keeps the check; it ends with no handler outstanding unless the
pass stops in the store through the NULL handle. -/
theorem start_listener_iter_sync (ls : Int) (st : LoopState) (it : Iter)
    (h : syncFrom none st.trace = some none) :
    (syncFrom none (start_listener_iter TRUE ls st it).trace).isSome = true
    ∧ ((start_listener_iter TRUE ls st it).status ≠ Status.fault →
        syncFrom none (start_listener_iter TRUE ls st it).trace = some none) := by
  by_cases c1 : it.callocOk = true <;> by_cases c2 : it.acceptRet = -1 <;>
    by_cases c3 : it.acceptErrno = EMFILE <;>
    simp [start_listener_iter, telemetry_sync, telemetry_status, syncFrom_append, syncFrom,
      syncStep, h, c1, c2, c3]

theorem start_domainsocket_listener_iter_sync (ls : Int) (st : LoopState) (it : Iter)
    (h : syncFrom none st.trace = some none) :
    syncFrom none (start_domainsocket_listener_iter TRUE ls st it).trace = some none := by
  by_cases c1 : it.callocOk = true <;> by_cases c2 : it.acceptRet = -1 <;>
    by_cases c3 : it.acceptErrno = EMFILE <;>
    simp [start_domainsocket_listener_iter, telemetry_sync, syncFrom_append, syncFrom,
      syncStep, h, c1, c2, c3]

theorem accept_failed_switch_sync (w : Option Int) (errno : Int) (st : LoopState) :
    syncFrom w (accept_failed_switch errno st).trace = syncFrom w st.trace := by
  unfold accept_failed_switch
  split <;> [split; skip] <;> simp [syncFrom_append, syncFrom, syncStep]

theorem start_listener_addrinfo_iter_sync (c : Consts) (ls : Int) (st : LoopState) (it : Iter)
    (h : syncFrom none st.trace = some none) :
    syncFrom none (start_listener_addrinfo_iter c TRUE ls st it).trace = some none := by
  by_cases c1 : it.callocOk = true
  · by_cases c2 : it.acceptRet = -1
    · simp only [start_listener_addrinfo_iter, c1, c2, Bool.true_eq_false, if_false, if_true,
        eq_self_iff_true]
      split
      · simp [accept_failed_switch_sync, syncFrom_append, syncFrom, syncStep, h]
      · simp [telemetry_sync, accept_failed_switch_sync, syncFrom_append, syncFrom, syncStep, h]
    · simp [start_listener_addrinfo_iter, addrinfo_dispatch, telemetry_sync, syncFrom_append,
        syncFrom, syncStep, h, c1, c2]
  · simp [start_listener_addrinfo_iter, syncFrom_append, syncFrom, syncStep, h, c1]

/-- C12: with debug_mode == TRUE, over every script, the trace of each of the
three listeners passes the check of synchronous dispatch: after a successful
accept the next accept is issued only after the inline call of process_meth on
the accepted descriptor has been made (and, process_meth being called inline,
has returned), and no connection is handed to a thread or to the worker pool.
When the run does not stop in an invalid access, no accepted connection is
left without its handler call. -/
theorem C12_diagnostic_dispatch_is_synchronous (c : Consts) (tenv : TcpEnv) (uenv : UnixEnv)
    (aenv : AddrinfoEnv) (debug_mode server_port : Int) (its : List Iter)
    (h_debug : debug_mode = TRUE) :
    ((syncFrom none (start_listener c tenv debug_mode server_port its).trace).isSome = true
      ∧ ((start_listener c tenv debug_mode server_port its).outcome ≠ Outcome.fault →
          syncFrom none (start_listener c tenv debug_mode server_port its).trace = some none))
    ∧ syncFrom none (start_domainsocket_listener c uenv debug_mode its).trace = some none
    ∧ syncFrom none (start_listener_addrinfo c aenv debug_mode its).trace = some none := by
  subst h_debug
  refine ⟨?_, ?_, ?_⟩
  · have hloop := runLoop_invariant_running (start_listener_iter TRUE tenv.socket_get_tcp)
      (fun st => (syncFrom none st.trace).isSome = true
        ∧ (st.status ≠ Status.fault → syncFrom none st.trace = some none))
      (fun st it hrun hI =>
        start_listener_iter_sync _ st it (hI.2 (by rw [hrun]; decide)))
      (loopEntry (tcp_started c tenv server_port)) its
      (by
        unfold loopEntry tcp_started
        split <;> simp [syncFrom, syncStep])
    unfold start_listener
    split_ifs
    all_goals first
      | (simp [syncFrom, syncStep]; done)
      | (rw [afterLoop_sync]
         exact ⟨hloop.1, fun hf => hloop.2 (afterLoop_outcome_fault _ _ _ _ hf)⟩)
  · have hloop := runLoop_invariant (start_domainsocket_listener_iter TRUE uenv.socket)
      (fun st => syncFrom none st.trace = some none) (fun _ => True)
      (fun st it _ hI => start_domainsocket_listener_iter_sync _ st it hI)
      (loopEntry (unix_started c uenv)) its (fun _ _ => trivial)
      (by
        unfold loopEntry unix_started
        split <;> simp [syncFrom, syncStep])
    unfold start_domainsocket_listener
    split_ifs
    all_goals first
      | (rw [afterLoop_sync]; exact hloop)
      | simp [syncFrom, syncStep]
  · have hp : ∀ tail, syncFrom none (addrinfo_prologue aenv ++ tail) = syncFrom none tail := by
      intro tail
      unfold addrinfo_prologue
      split <;> simp [syncFrom, syncStep]
    have hloop := runLoop_invariant
      (start_listener_addrinfo_iter c TRUE aenv.get_listen_socket)
      (fun st => syncFrom none st.trace = some none) (fun _ => True)
      (fun st it _ hI => start_listener_addrinfo_iter_sync c _ st it hI)
      (loopEntry (addrinfo_prologue aenv ++ [Event.freeaddrinfo])) its (fun _ _ => trivial)
      (by simp [loopEntry, hp, syncFrom, syncStep])
    unfold start_listener_addrinfo
    split_ifs
    all_goals first
      | (rw [afterLoop_sync]; exact hloop)
      | (rw [hp]; simp [syncFrom, syncStep])
      | (have hq := hp []; simp at hq; simp [hq, syncFrom])

/-- C12 witness: two successive connections in diagnostic mode; in each of the
three listeners the order of effects is accept, handler, accept, handler. -/
theorem C12_diagnostic_dispatch_is_synchronous_witness :
    (1 : Int) = TRUE
    ∧ syncFrom none (start_listener sampleConsts tcpOk 1 15001
        [acceptsLoopback 7, acceptsLoopback 8]).trace = some none
    ∧ syncView (start_listener sampleConsts tcpOk 1 15001
        [acceptsLoopback 7, acceptsLoopback 8]).trace
        = [Event.accept 3 7, Event.process_meth 7, Event.accept 3 8, Event.process_meth 8]
    ∧ syncView (start_domainsocket_listener sampleConsts unixOk 1
        [acceptsLoopback 7, acceptsLoopback 8]).trace
        = [Event.accept 3 7, Event.process_meth 7, Event.accept 3 8, Event.process_meth 8]
    ∧ syncView (start_listener_addrinfo sampleConsts addrinfoOk 1
        [acceptsLoopback 7, acceptsLoopback 8]).trace
        = [Event.accept 3 7, Event.process_meth 7, Event.accept 3 8, Event.process_meth 8] :=
  have h := C12_diagnostic_dispatch_is_synchronous sampleConsts tcpOk unixOk addrinfoOk 1 15001
    [acceptsLoopback 7, acceptsLoopback 8] rfl
  ⟨rfl, h.1.2 (by decide), by decide, by decide, by decide⟩

end ServerCore

namespace Groups

/-! ## C11 : what getgrnam_ext returns when no entry is found -/

/-- C11 at the failing inputs: with both allocations succeeding and a non-NULL
name, getgrnam_ext returns the struct it allocated whenever the lookup it ends
on returns 0, and never looks at `*result`.  When getgrnam_r returns 0 the
pointer is returned with whatever `*result` says, also NULL (no such group),
and getgrgid_r is not consulted; when getgrnam_r fails and the name starts
with a digit, a getgrgid_r that returns 0 gives the pointer, again also with
`*result` NULL. -/
theorem C11_returns_struct_without_entry (env : Env) (name : List Char)
    (h_malloc : env.mallocOk = true) (h_calloc : env.callocOk = true) :
    ((env.getgrnam_r name (bufsize env)).rc = 0 →
      getgrnam_ext env (some name)
        = { ret := Ret.grp (env.getgrnam_r name (bufsize env)).result, log := [] })
    ∧ ((env.getgrnam_r name (bufsize env)).rc ≠ 0 → isdigit_first name = true →
      (env.getgrgid_r (atoi name) (bufsize env)).rc = 0 →
      getgrnam_ext env (some name)
        = { ret := Ret.grp (env.getgrgid_r (atoi name) (bufsize env)).result, log := [] }) := by
  constructor
  · intro h
    simp [getgrnam_ext, h_malloc, h_calloc, h]
  · intro h1 h2 h3
    simp [getgrnam_ext, h_malloc, h_calloc, h1, h2, h3]

/-- C11 witness: in a database that holds only the group `users` (id 100), the
unknown name `nogroup` and the unknown id `4242` (behind a getgrnam_r that
reports ENOENT) both give a non-NULL pointer to a struct with no entry, and
the valid id `100` gives one as well, because the lookup by id is not made
when getgrnam_r returns 0. -/
theorem C11_returns_struct_without_entry_witness :
    (getgrnam_ext usersOnly (some ['n', 'o', 'g', 'r', 'o', 'u', 'p'])).ret = Ret.grp none
    ∧ (getgrnam_ext usersOnlyEnoent (some ['4', '2', '4', '2'])).ret = Ret.grp none
    ∧ (getgrnam_ext usersOnly (some ['1', '0', '0'])).ret = Ret.grp none
    ∧ (getgrnam_ext usersOnlyEnoent (some ['1', '0', '0'])).ret = Ret.grp (some usersGroup)
    ∧ (getgrnam_ext usersOnly none).ret = Ret.null :=
  have h1 := C11_returns_struct_without_entry usersOnly ['n', 'o', 'g', 'r', 'o', 'u', 'p']
    rfl rfl
  have h2 := C11_returns_struct_without_entry usersOnlyEnoent ['4', '2', '4', '2'] rfl rfl
  ⟨congrArg Out.ret (h1.1 (by decide)),
    congrArg Out.ret (h2.2 (by decide) (by decide) (by decide)),
    by decide, by decide, by decide⟩

end Groups

namespace PbsTrack

/-! ## C13 : the copy of the -j argument -/

theorem parse_step_other (ptr_size : Nat) (st : ParseState) (g : GetoptRet)
    (h : g.ArgIndex ≠ 'j') : (parse_step ptr_size st g).tmpJobID = st.tmpJobID := by
  unfold parse_step
  split_ifs <;> rfl

theorem parse_fold_other (ptr_size : Nat) (st : ParseState) (opts : List GetoptRet)
    (h : ∀ g ∈ opts, g.ArgIndex ≠ 'j') :
    (opts.foldl (parse_step ptr_size) st).tmpJobID = st.tmpJobID := by
  induction opts generalizing st with
  | nil => rfl
  | cons g rest ih =>
    simp only [List.foldl_cons]
    rw [ih _ (fun x hx => h x (List.mem_cons_of_mem _ hx)),
      parse_step_other ptr_size st g (h g (List.mem_cons_self _ _))]

theorem parse_step_j (ptr_size : Nat) (st : ParseState) (X : List Char)
    (h_size : 0 < ptr_size) :
    (parse_step ptr_size st (optJ X)).tmpJobID
      = X.take (ptr_size - 1) := by
  have h0 : ptr_size ≠ 0 := by omega
  simp [parse_step, snprintf_s, optJ, h0]

/-- C13 at the failing inputs: whatever precedes the last -j option, and for
every -j argument X, parse_commandline_opts leaves in tmpJobID the first
sizeof(char *) - 1 characters of X: the bound of the copy is the size of the
pointer parameter.  An X of at least sizeof(char *) characters is truncated,
also when it fits the caller's buffer of PBS_MAXCLTJOBID bytes. -/
theorem C13_job_id_cut_at_pointer_size (ptr_size PBS_MAXCLTJOBID : Nat)
    (PBSE_NONE argc optind : Int) (before after : List GetoptRet) (X : List Char)
    (h_size : 0 < ptr_size) (h_last : ∀ g ∈ after, g.ArgIndex ≠ 'j')
    (_h_fits : X.length < PBS_MAXCLTJOBID) (h_long : ptr_size ≤ X.length) :
    (main_parse ptr_size PBSE_NONE argc optind
        (before ++ optJ X :: after)).st.tmpJobID
      = X.take (ptr_size - 1)
    ∧ (main_parse ptr_size PBSE_NONE argc optind
        (before ++ optJ X :: after)).st.tmpJobID.length
      = ptr_size - 1
    ∧ (main_parse ptr_size PBSE_NONE argc optind
        (before ++ optJ X :: after)).st.tmpJobID ≠ X := by
  have hval : (main_parse ptr_size PBSE_NONE argc optind
      (before ++ optJ X :: after)).st.tmpJobID
      = X.take (ptr_size - 1) := by
    unfold main_parse parse_commandline_opts
    have hfold : ∀ st0 : ParseState,
        ((before ++ optJ X :: after).foldl (parse_step ptr_size)
          st0).tmpJobID = X.take (ptr_size - 1) := by
      intro st0
      rw [List.foldl_append, List.foldl_cons, parse_fold_other ptr_size _ after h_last,
        parse_step_j ptr_size _ X h_size]
    simp only []
    split_ifs <;> exact hfold _
  have hlen : (X.take (ptr_size - 1)).length = ptr_size - 1 := by
    rw [List.length_take]; omega
  refine ⟨hval, ?_, ?_⟩
  · rw [hval, hlen]
  · rw [hval]
    intro heq
    have := congrArg List.length heq
    rw [hlen] at this
    omega

/-- C13 witness: `pbs_track -j 1234567.host -b -- a.out` on a 64-bit host;
tmpJobID ends as `1234567`. -/
theorem C13_job_id_cut_at_pointer_size_witness :
    jobid12.length < 64 ∧ 8 ≤ jobid12.length
    ∧ (main_parse 8 0 5 4 ([] ++ optJ jobid12 :: [optB])).st.tmpJobID
      = ['1', '2', '3', '4', '5', '6', '7']
    ∧ (main_parse 8 0 5 4 ([] ++ optJ jobid12 :: [optB])).ret = 0 :=
  have h := C13_job_id_cut_at_pointer_size 8 64 0 5 4 [] [optB] jobid12 (by decide) (by decide)
    (by decide) (by decide)
  ⟨by decide, by decide, h.1, by decide⟩

end PbsTrack
